import Mathlib

/-
Verification of `jira_export.py`: a pipeline that discovers issue ids by
cursor pagination, bulk-fetches full records, flattens them into rows,
sorts by creation time, and publishes to a local spreadsheet file and a
remote hosted sheet.  Python values, dictionaries, truthiness, `int()`
parsing, `datetime.strptime` for the two format strings used, and the
control flow of the fetch/retry loops are embedded shallowly below;
theorems about the embedding follow the definitions.
-/

namespace JiraExport

/-- Python-ish JSON values as they appear in decoded API responses:
`None`, strings, integers, booleans, lists and dicts (dicts modelled as
association lists with the first binding of a key the authoritative one,
matching the unique-key property of decoded JSON objects). -/
inductive JVal where
  | null
  | str (s : String)
  | num (n : Int)
  | bool (b : Bool)
  | list (xs : List JVal)
  | dict (kvs : List (String × JVal))
deriving Repr

/-- Python exceptions that the embedded fragments can raise. -/
inductive PyErr where
  | attributeError
  | typeError
  | valueError (msg : String)
  | runtimeError (msg : String)
deriving Repr, DecidableEq

/-- Python truthiness (`bool(v)`) on the embedded values: `None`, `""`,
`0`, `False` and empty containers are falsy, everything else truthy. -/
def truthy : JVal → Bool
  | .null => false
  | .str s => s ≠ ""
  | .num n => n ≠ 0
  | .bool b => b
  | .list xs => !xs.isEmpty
  | .dict kvs => !kvs.isEmpty

/-- Whether a value is a Python dict (`isinstance(v, dict)`). -/
def isDict : JVal → Bool
  | .dict _ => true
  | _ => false

/-- Python `d.get(k)`: the value bound to `k`, or `None` when absent. -/
def pyGet (kvs : List (String × JVal)) (k : String) : JVal :=
  match kvs.lookup k with
  | some v => v
  | none => .null

/-- Python `d.get(k, default)`. -/
def pyGetD (kvs : List (String × JVal)) (k : String) (d : JVal) : JVal :=
  match kvs.lookup k with
  | some v => v
  | none => d

/-- One iteration of the loop body of the nested accessor `g` in
`flatten_issue`: `cur = (cur or {}).get(k)`.  A falsy `cur` is replaced by
the empty dict before the `.get`, so `.get` raises `AttributeError`
exactly when `cur` is truthy and not a dict. -/
def gStep (cur : JVal) (k : String) : Except PyErr JVal :=
  match (if truthy cur then cur else .dict []) with
  | .dict kvs => .ok (pyGet kvs k)
  | _ => .error .attributeError

/-- The accessor `g(*keys)` of `flatten_issue`: the loop
`for k in keys: cur = (cur or {}).get(k)` over the key path, an
`AttributeError` at any step aborting it.  The trailing
`return cur if cur is not None else default` with the default `None` is
the identity and is left implicit. -/
def g : JVal → List String → Except PyErr JVal
  | cur, [] => .ok cur
  | cur, k :: ks =>
    match gStep cur k with
    | .ok v => g v ks
    | .error e => .error e

/-- The value `(cur or {}).get(k)` would take at a step where it does not
raise (`.null` at a step where it would; used only to phrase safety). -/
def gStepVal (v : JVal) (k : String) : JVal :=
  match (if truthy v then v else .dict []) with
  | .dict kvs => pyGet kvs k
  | _ => .null

/-- Safety of a lookup path: at every step the current value is falsy or
a dict, so `.get` never meets a truthy non-dict. -/
def gSafe : JVal → List String → Bool
  | _, [] => true
  | v, k :: ks => (!truthy v || isDict v) && gSafe (gStepVal v k) ks

/-- The resolution computation of `flatten_issue` (lines 159-162):
`res_obj = fields.get("resolution")` (raising `AttributeError` when
`fields` is not a dict), then `res_obj.get("name")` if `res_obj` is a
dict with a truthy `name`, else the literal `"Unresolved"`. -/
def resolution_name (fields : JVal) : Except PyErr JVal :=
  match fields with
  | .dict kvs =>
    match pyGet kvs "resolution" with
    | .dict rkvs =>
      .ok (if truthy (pyGet rkvs "name") then pyGet rkvs "name" else .str "Unresolved")
    | _ => .ok (.str "Unresolved")
  | _ => .error .attributeError

/-- ASCII decimal digit test. -/
def isDigitChar (c : Char) : Bool := 48 ≤ c.toNat && c.toNat ≤ 57

/-- Numeric value of an ASCII digit. -/
def digitVal (c : Char) : Nat := c.toNat - 48

/-- Horner evaluation of a digit list. -/
def digitsToNat (ds : List Nat) : Nat := ds.foldl (fun a d => a * 10 + d) 0

/-- Characters `int()` and `str.strip()` treat as (ASCII) whitespace. -/
def isPyWS (c : Char) : Bool :=
  c = ' ' || c = '\t' || c = '\n' || c = '\r' || c.toNat = 11 || c.toNat = 12

/-- Strip surrounding whitespace from a character list. -/
def stripWS (cs : List Char) : List Char :=
  ((cs.dropWhile isPyWS).reverse.dropWhile isPyWS).reverse

/-- Python `s.strip()` (ASCII whitespace; the unicode extras Python also
strips do not occur in the configuration strings modelled here). -/
def pyStrip (s : String) : String := String.mk (stripWS s.data)

/-- Digit tail of an `int()` literal: digits with single underscores
allowed between digits, consuming the whole remaining input. -/
def pyIntDigitsAux : List Char → Option (List Nat)
  | [] => some []
  | '_' :: c :: rest =>
    if isDigitChar c then (pyIntDigitsAux rest).map (digitVal c :: ·) else none
  | ['_'] => none
  | c :: rest =>
    if isDigitChar c then (pyIntDigitsAux rest).map (digitVal c :: ·) else none

/-- Nonempty digit run of an `int()` literal (no leading underscore). -/
def pyIntDigits : List Char → Option (List Nat)
  | [] => none
  | '_' :: _ => none
  | c :: rest =>
    if isDigitChar c then (pyIntDigitsAux rest).map (digitVal c :: ·) else none

/-- Python `int(s)` on a string: optional surrounding whitespace, an
optional sign, then ASCII digits with single underscores between digits;
anything else raises `ValueError` (`none` here).  Non-ASCII decimal
digits, which CPython also accepts, do not occur in the inputs modelled. -/
def pyIntParse (s : String) : Option Int :=
  match stripWS s.data with
  | '+' :: rest => (pyIntDigits rest).map (fun ds => (digitsToNat ds : Int))
  | '-' :: rest => (pyIntDigits rest).map (fun ds => -(digitsToNat ds : Int))
  | rest => (pyIntDigits rest).map (fun ds => (digitsToNat ds : Int))

/-
Model of `datetime.strptime` for the two format strings the program uses,
`"%Y-%m-%dT%H:%M:%S.%f%z"` and `"%Y-%m-%d"`.  CPython compiles each
directive to a regular-expression fragment (module `_strptime`):
  %Y -> 4 digits            %m -> 1[0-2]|0[1-9]|[1-9]
  %d -> 3[01]|[12]d|0[1-9]|[1-9]
  %H -> 2[0-3]|[0-1]d|d     %M -> [0-5]d|d     %S -> 6[0-1]|[0-5]d|d
  %f -> [0-9] 1 to 6 times
  %z -> [+-]dd:?[0-5]d(:?[0-5]d(.d 1-6)?)? or Z
compiled with IGNORECASE (so the literal `T` also matches `t`), anchored
at the start, with a trailing "unconverted data remains" check; the
matched values are then passed to the `datetime` constructor, which
rejects year 0, day numbers beyond the month length, and seconds 60/61,
and to `timezone()`, which rejects offsets of 24 hours or more.  Each
alternation below is committed (no backtracking) — this coincides with
the regex because every directive is followed by a non-digit literal.
-/

/-- A naive timestamp as produced by `dt_obj` (after `replace(tzinfo=None)`). -/
structure NaiveDT where
  year : Nat
  month : Nat
  day : Nat
  hour : Nat
  minute : Nat
  second : Nat
  microsecond : Nat
deriving Repr, DecidableEq

/-- A calendar date as produced by `d_obj`. -/
structure NaiveDate where
  year : Nat
  month : Nat
  day : Nat
deriving Repr, DecidableEq

/-- A parsed `%z` offset: literal `Z`, or a signed hours/minutes/seconds
offset (any sub-second fraction is dropped; it never affects validity). -/
inductive TZOff where
  | utcZ
  | off (neg : Bool) (hh mm ss : Nat)
deriving Repr, DecidableEq

/-- Expect one literal character. -/
def expectChar (c : Char) : List Char → Option (List Char)
  | c' :: rest => if c' = c then some rest else none
  | [] => none

/-- Directive `%Y`: exactly four digits. -/
def parseY : List Char → Option (Nat × List Char)
  | c1 :: c2 :: c3 :: c4 :: rest =>
    if isDigitChar c1 && isDigitChar c2 && isDigitChar c3 && isDigitChar c4 then
      some (digitVal c1 * 1000 + digitVal c2 * 100 + digitVal c3 * 10 + digitVal c4, rest)
    else none
  | _ => none

/-- Directive `%m`, the regex alternation `1[0-2]|0[1-9]|[1-9]`. -/
def parseMonth : List Char → Option (Nat × List Char)
  | '1' :: c2 :: rest =>
    if '0' ≤ c2 && c2 ≤ '2' then some (10 + digitVal c2, rest) else some (1, c2 :: rest)
  | '0' :: c2 :: rest =>
    if '1' ≤ c2 && c2 ≤ '9' then some (digitVal c2, rest) else none
  | c1 :: rest =>
    if '1' ≤ c1 && c1 ≤ '9' then some (digitVal c1, rest) else none
  | [] => none

/-- Directive `%d`, the regex alternation `3[01]|[12]d|0[1-9]|[1-9]`. -/
def parseDay : List Char → Option (Nat × List Char)
  | '3' :: c2 :: rest =>
    if c2 = '0' || c2 = '1' then some (30 + digitVal c2, rest) else some (3, c2 :: rest)
  | '0' :: c2 :: rest =>
    if '1' ≤ c2 && c2 ≤ '9' then some (digitVal c2, rest) else none
  | c1 :: c2 :: rest =>
    if (c1 = '1' || c1 = '2') && isDigitChar c2 then
      some (digitVal c1 * 10 + digitVal c2, rest)
    else if '1' ≤ c1 && c1 ≤ '9' then some (digitVal c1, c2 :: rest)
    else none
  | [c1] => if '1' ≤ c1 && c1 ≤ '9' then some (digitVal c1, []) else none
  | [] => none

/-- Directive `%H`, the regex alternation `2[0-3]|[0-1]d|d`. -/
def parseHour : List Char → Option (Nat × List Char)
  | '2' :: c2 :: rest =>
    if '0' ≤ c2 && c2 ≤ '3' then some (20 + digitVal c2, rest) else some (2, c2 :: rest)
  | c1 :: c2 :: rest =>
    if (c1 = '0' || c1 = '1') && isDigitChar c2 then
      some (digitVal c1 * 10 + digitVal c2, rest)
    else if isDigitChar c1 then some (digitVal c1, c2 :: rest)
    else none
  | [c1] => if isDigitChar c1 then some (digitVal c1, []) else none
  | [] => none

/-- Directive `%M`, the regex alternation `[0-5]d|d`. -/
def parseMin : List Char → Option (Nat × List Char)
  | c1 :: c2 :: rest =>
    if '0' ≤ c1 && c1 ≤ '5' && isDigitChar c2 then
      some (digitVal c1 * 10 + digitVal c2, rest)
    else if isDigitChar c1 then some (digitVal c1, c2 :: rest)
    else none
  | [c1] => if isDigitChar c1 then some (digitVal c1, []) else none
  | [] => none

/-- Directive `%S`, the regex alternation `6[0-1]|[0-5]d|d` (leap seconds
pass the regex; the `datetime` constructor rejects them afterwards). -/
def parseSec : List Char → Option (Nat × List Char)
  | '6' :: c2 :: rest =>
    if c2 = '0' || c2 = '1' then some (60 + digitVal c2, rest) else some (6, c2 :: rest)
  | c1 :: c2 :: rest =>
    if '0' ≤ c1 && c1 ≤ '5' && isDigitChar c2 then
      some (digitVal c1 * 10 + digitVal c2, rest)
    else if isDigitChar c1 then some (digitVal c1, c2 :: rest)
    else none
  | [c1] => if isDigitChar c1 then some (digitVal c1, []) else none
  | [] => none

/-- Greedily take up to `n` leading digits, as digit values. -/
def takeDigits : Nat → List Char → (List Nat × List Char)
  | 0, cs => ([], cs)
  | _ + 1, [] => ([], [])
  | n + 1, c :: cs =>
    if isDigitChar c then
      let p := takeDigits n cs
      (digitVal c :: p.1, p.2)
    else ([], c :: cs)

/-- Directive `%f`: one to six digits, right-padded to a microsecond
count (`int(s + "0" * (6 - len(s)))`). -/
def parseFrac (cs : List Char) : Option (Nat × List Char) :=
  let p := takeDigits 6 cs
  if p.1.isEmpty then none
  else some (digitsToNat p.1 * 10 ^ (6 - p.1.length), p.2)

/-- Optional fraction of the seconds group of `%z` (a dot and one to six
digits): consumed when present, else the input is left alone. -/
def parseOffFrac (cs : List Char) : List Char :=
  match cs with
  | '.' :: rest =>
    let p := takeDigits 6 rest
    if p.1.isEmpty then cs else p.2
  | _ => cs

/-- The optional colon `:?` of `%z`: consumed when present. -/
def skipColon : List Char → List Char
  | c :: r => if c = ':' then r else c :: r
  | [] => []

/-- Optional seconds group of `%z` (an optional colon, two digits below
60, an optional fraction): returns the parsed offset seconds (0 when the
group is absent) and the remaining input. -/
def parseOffSec (cs : List Char) : (Nat × List Char) :=
  match skipColon cs with
  | s1 :: s2 :: rest =>
    if '0' ≤ s1 && s1 ≤ '5' && isDigitChar s2 then
      (digitVal s1 * 10 + digitVal s2, parseOffFrac rest)
    else (0, cs)
  | _ => (0, cs)

/-- Body of a signed `%z` offset: two hour digits, an optional colon, two
minute digits below 60, then the optional seconds group. -/
def parseOffBody (cs : List Char) : Option ((Nat × Nat × Nat) × List Char) :=
  match cs with
  | h1 :: h2 :: rest =>
    if isDigitChar h1 && isDigitChar h2 then
      match skipColon rest with
      | m1 :: m2 :: rest2 =>
        if '0' ≤ m1 && m1 ≤ '5' && isDigitChar m2 then
          let p := parseOffSec rest2
          some ((digitVal h1 * 10 + digitVal h2, digitVal m1 * 10 + digitVal m2, p.1), p.2)
        else none
      | _ => none
    else none
  | _ => none

/-- Directive `%z`: a signed offset or the literal `Z` (the `Z` branch is
case-sensitive even under IGNORECASE). -/
def parseTZ : List Char → Option (TZOff × List Char)
  | [] => none
  | c :: rest =>
    if c = '+' || c = '-' then
      match parseOffBody rest with
      | some ((hh, mm, ss), rest') => some (.off (c = '-') hh mm ss, rest')
      | none => none
    else if c = 'Z' then some (.utcZ, rest)
    else none

/-- The `T` separator, matched case-insensitively (IGNORECASE). -/
def expectSepT : List Char → Option (List Char)
  | c :: r => if c = 'T' || c = 't' then some r else none
  | [] => none

/-- The regex phase of `strptime(s, "%Y-%m-%dT%H:%M:%S.%f%z")` on the
character list, including the full-consumption check. -/
def strptimeTSCore (cs : List Char) : Option (NaiveDT × TZOff) :=
  (parseY cs).bind fun (y, r1) =>
  (expectChar '-' r1).bind fun r2 =>
  (parseMonth r2).bind fun (mo, r3) =>
  (expectChar '-' r3).bind fun r4 =>
  (parseDay r4).bind fun (d, r5) =>
  (expectSepT r5).bind fun r6 =>
  (parseHour r6).bind fun (h, r7) =>
  (expectChar ':' r7).bind fun r8 =>
  (parseMin r8).bind fun (mi, r9) =>
  (expectChar ':' r9).bind fun r10 =>
  (parseSec r10).bind fun (sec, r11) =>
  (expectChar '.' r11).bind fun r12 =>
  (parseFrac r12).bind fun (us, r13) =>
  (parseTZ r13).bind fun (tz, r14) =>
  if r14.isEmpty then some (⟨y, mo, d, h, mi, sec, us⟩, tz) else none

/-- The regex phase of `strptime(s, "%Y-%m-%dT%H:%M:%S.%f%z")`. -/
def strptimeTSMatch (s : String) : Option (NaiveDT × TZOff) :=
  strptimeTSCore s.data

/-- Gregorian leap-year test. -/
def isLeapYear (y : Nat) : Bool := (y % 4 = 0 && y % 100 ≠ 0) || y % 400 = 0

/-- Length of a month. -/
def daysInMonth (y m : Nat) : Nat :=
  if m = 2 then (if isLeapYear y then 29 else 28)
  else if m = 4 || m = 6 || m = 9 || m = 11 then 30 else 31

/-- Validity enforced by `timezone()`: the absolute offset must be
strictly below 24 hours. -/
def tzValid : TZOff → Bool
  | .utcZ => true
  | .off _ hh mm ss => hh * 3600 + mm * 60 + ss < 86400

/-- Validity enforced by the `datetime` constructor on top of what the
regex already guarantees: year at least 1, day within the month, no leap
seconds. -/
def dtValid (t : NaiveDT) : Bool :=
  1 ≤ t.year && t.day ≤ daysInMonth t.year t.month && t.second ≤ 59

/-- Composition `datetime.strptime(s, "%Y-%m-%dT%H:%M:%S.%f%z")` followed
by `.replace(tzinfo=None)`: the parsed local components with the offset
discarded, or `ValueError`. -/
def strptimeNaive (s : String) : Except PyErr NaiveDT :=
  match strptimeTSMatch s with
  | none => .error (.valueError ("time data does not match format: " ++ s))
  | some (t, tz) =>
    if dtValid t && tzValid tz then .ok t
    else .error (.valueError ("invalid time value: " ++ s))

/-- The regex phase of `strptime(s, "%Y-%m-%d")`. -/
def strptimeDateMatch (s : String) : Option NaiveDate :=
  (parseY s.data).bind fun (y, r1) =>
  (expectChar '-' r1).bind fun r2 =>
  (parseMonth r2).bind fun (mo, r3) =>
  (expectChar '-' r3).bind fun r4 =>
  (parseDay r4).bind fun (d, r5) =>
  if r5.isEmpty then some ⟨y, mo, d⟩ else none

/-- Composition `datetime.strptime(s, "%Y-%m-%d").date()`, or `ValueError`. -/
def strptimeDate (s : String) : Except PyErr NaiveDate :=
  match strptimeDateMatch s with
  | none => .error (.valueError ("time data does not match format: " ++ s))
  | some t =>
    if 1 ≤ t.year && t.day ≤ daysInMonth t.year t.month then .ok t
    else .error (.valueError ("invalid date value: " ++ s))

/-- The function `dt_obj`: falsy input gives `None`; a truthy string is
parsed with `"%Y-%m-%dT%H:%M:%S.%f%z"` and the offset is discarded; a
truthy non-string raises `TypeError` inside `strptime`. -/
def dt_obj (v : JVal) : Except PyErr (Option NaiveDT) :=
  if truthy v then
    match v with
    | .str s => (strptimeNaive s).map some
    | _ => .error .typeError
  else .ok none

/-- The function `d_obj`: falsy input gives `None`; a truthy string is
parsed with `"%Y-%m-%d"`; a truthy non-string raises `TypeError`. -/
def d_obj (v : JVal) : Except PyErr (Option NaiveDate) :=
  if truthy v then
    match v with
    | .str s => (strptimeDate s).map some
    | _ => .error .typeError
  else .ok none

/-- The ASCII digit character of a value below ten. -/
def renderDigit (d : Nat) : Char := Char.ofNat (48 + d)

/-- Two-digit zero-padded decimal rendering. -/
def render2 (n : Nat) : List Char := [renderDigit (n / 10), renderDigit (n % 10)]

/-- Four-digit zero-padded decimal rendering. -/
def render4 (n : Nat) : List Char :=
  [renderDigit (n / 1000), renderDigit (n / 100 % 10), renderDigit (n / 10 % 10),
   renderDigit (n % 10)]

/-- A timestamp string of the spec shape `YYYY-MM-DDTHH:MM:SS.f±HHMM`
(fraction digit values `ds`, one to six digits), as a character list,
used to quantify over all fixed-width in-format inputs. -/
def renderTS (y mo d h mi s : Nat) (ds : List Nat) (neg : Bool) (oh om : Nat) : List Char :=
  render4 y ++ ('-' :: (render2 mo ++ ('-' :: (render2 d ++ ('T' :: (render2 h ++
    (':' :: (render2 mi ++ (':' :: (render2 s ++ ('.' :: (ds.map renderDigit ++
    ((if neg then '-' else '+') :: (render2 oh ++ render2 om))))))))))))))

/-- The flat row produced by `flatten_issue`. -/
structure Row where
  key : JVal
  work : JVal
  assignee : JVal
  reporter : JVal
  priority : JVal
  status : JVal
  resolution : JVal
  created : Option NaiveDT
  updated : Option NaiveDT
  due_date : Option NaiveDate
deriving Repr

/-- The function `flatten_issue` on a decoded issue object.  Evaluation
order follows the source: `fields = issue.get("fields", {})`, then the
resolution computation (lines 159-162), then the returned dict literal
whose values call `g`, `dt_obj` and `d_obj` left to right. -/
def flatten_issue (issue : List (String × JVal)) : Except PyErr Row :=
  let fields := pyGetD issue "fields" (.dict [])
  match resolution_name fields with
  | .error e => .error e
  | .ok resolution =>
  match g fields ["summary"] with
  | .error e => .error e
  | .ok work =>
  match g fields ["assignee", "displayName"] with
  | .error e => .error e
  | .ok assignee =>
  match g fields ["reporter", "displayName"] with
  | .error e => .error e
  | .ok reporter =>
  match g fields ["priority", "name"] with
  | .error e => .error e
  | .ok priority =>
  match g fields ["status", "name"] with
  | .error e => .error e
  | .ok status =>
  match (g fields ["created"]).bind dt_obj with
  | .error e => .error e
  | .ok created =>
  match (g fields ["updated"]).bind dt_obj with
  | .error e => .error e
  | .ok updated =>
  match (g fields ["duedate"]).bind d_obj with
  | .error e => .error e
  | .ok due =>
  .ok ⟨pyGet issue "key", work, assignee, reporter, priority, status, resolution,
       created, updated, due⟩

/-
The two-phase fetch protocol.  Network interaction is modelled by a
script: the list of HTTP responses the server returns, in order, one per
request issued.  A run consumes the script from the front; `none` means
the script was exhausted while the code would have issued another
request.  Sleeps performed by the 429 handler are accumulated so that
their number and durations can be observed.
-/

/-- An HTTP response as the program observes it: status code, the
`Retry-After` header (absent when the server did not send one), the
response body text, and the two fields read from the decoded JSON body. -/
structure HttpResponse where
  status : Nat
  retryAfter : Option String := none
  body : String := ""
  issues : List (List (String × JVal)) := []
  nextPageToken : Option String := none

/-- Truthiness of an optional string (Python `if x:` on a value that is
either `None` or a string). -/
def optTruthy : Option String → Bool
  | some s => s ≠ ""
  | none => false

/-- The wait chosen by `_sleep_retry_after`: the `Retry-After` header
parsed with `int()` when the header is truthy and parses, and the fixed
default `RETRY_429_SECONDS = 10` when the header is absent, empty or
unparsable (`ValueError` caught). -/
def retry_wait (h : Option String) : Int :=
  match h with
  | some s =>
    if s ≠ "" then
      match pyIntParse s with
      | some n => n
      | none => 10
    else 10
  | none => 10

/-- The call `time.sleep(wait)` closing `_sleep_retry_after`: sleeps for
the computed wait, except that CPython raises
`ValueError("sleep length must be non-negative")` on a negative wait. -/
def sleep_retry_after (h : Option String) : Except PyErr Int :=
  let w := retry_wait h
  if w < 0 then .error (.valueError "sleep length must be non-negative") else .ok w

/-- The value appended per issue in the discovery loop:
`it.get("id") or it.get("key")`. -/
def idOrKey (it : List (String × JVal)) : JVal :=
  let i := pyGet it "id"
  if truthy i then i else pyGet it "key"

/-- The `while True` loop of `search_issue_ids_by_jql`, run against a
response script, carrying the identifiers accumulated so far and the
sleeps performed so far.  A 429 sleeps and retries (consuming the next
scripted response); any other non-200 status raises `RuntimeError` with
the status code and body; a 200 appends the page and exits when the
response has no truthy `nextPageToken` or an empty `issues` list. -/
def searchLoop : List HttpResponse → List JVal → List Int →
    Option (List Int × Except PyErr (List JVal))
  | [], _, _ => none
  | r :: script, ids, sleeps =>
    if r.status = 429 then
      match sleep_retry_after r.retryAfter with
      | .ok w => searchLoop script ids (sleeps ++ [w])
      | .error e => some (sleeps, .error e)
    else if r.status ≠ 200 then
      some (sleeps, .error (.runtimeError
        ("Failed to search issue IDs via /search/jql: " ++ toString r.status ++ " " ++ r.body)))
    else
      let ids' := ids ++ r.issues.map idOrKey
      if !optTruthy r.nextPageToken || r.issues.isEmpty then some (sleeps, .ok ids')
      else searchLoop script ids' sleeps

/-- The function `search_issue_ids_by_jql` against a response script:
the sleeps performed and the returned identifier list (or the raised
exception). -/
def search_issue_ids_by_jql (script : List HttpResponse) :
    Option (List Int × Except PyErr (List JVal)) :=
  searchLoop script [] []

/-- The inner `while True` loop of `bulk_fetch_issues` for one chunk, run
against a response script: a 429 sleeps and retries, any other non-200
raises `RuntimeError`, a 200 returns the decoded `issues` list. -/
def bulkRequestLoop : List HttpResponse → List Int →
    Option (List Int × Except PyErr (List (List (String × JVal))))
  | [], _ => none
  | r :: script, sleeps =>
    if r.status = 429 then
      match sleep_retry_after r.retryAfter with
      | .ok w => bulkRequestLoop script (sleeps ++ [w])
      | .error e => some (sleeps, .error e)
    else if r.status ≠ 200 then
      some (sleeps, .error (.runtimeError ("Bulk fetch failed: " ++ toString r.status ++ " " ++ r.body)))
    else some (sleeps, .ok r.issues)

/-- The chunk slices taken by the `for i in range(0, len(ids), BULK_FETCH_CHUNK)`
loop of `bulk_fetch_issues` with `BULK_FETCH_CHUNK = 100`: the slice
`ids[i:i+100]` for each loop index, in loop order.  Each slice is the
payload of exactly one bulk-fetch POST request. -/
def bulk_fetch_calls (ids : List α) : List (List α) :=
  (List.range ((ids.length + 99) / 100)).map (fun j => ((ids.drop (j * 100)).take 100))

/-- The function `bulk_fetch_issues`, with the per-chunk exchange
abstracted by `api` (the `issues` list of the eventual 200 response for
that chunk; the surrounding retry loop is `bulkRequestLoop`): `out` is
extended with each chunk response in loop order. -/
def bulk_fetch_issues (api : List α → List (List (String × JVal))) (ids : List α) :
    List (List (String × JVal)) :=
  ((List.range ((ids.length + 99) / 100)).map
    (fun j => api ((ids.drop (j * 100)).take 100))).flatten

/-- Structural chunking: the list split into consecutive blocks of at
most 100 elements. -/
def chunks100 : List α → List (List α)
  | [] => []
  | x :: xs => (x :: xs).take 100 :: chunks100 ((x :: xs).drop 100)
termination_by l => l.length
decreasing_by simp_all; omega

/-- The function `fetch_all_issues`, downstream of discovery: with the
identifier list already discovered, `if not ids: return []` skips bulk
retrieval entirely, otherwise every chunk is fetched.  The first
component records the chunk payloads of the bulk-fetch requests issued
(empty exactly when no request is made). -/
def fetch_all_issues (api : List α → List (List (String × JVal))) (ids : List α) :
    List (List α) × List (List (String × JVal)) :=
  if ids.isEmpty then ([], [])
  else (bulk_fetch_calls ids, bulk_fetch_issues api ids)

/-
Source resolution (`main`, lines 190-211): pick the query string, the
numeric filter id, or the filter name, in that order.
-/

/-- One candidate returned by the filter name-search endpoint. -/
structure FilterCand where
  id : Int
  name : String

/-- Configuration slots read from the environment: each is `None` when
the variable is unset, the raw string otherwise. -/
structure EnvConfig where
  jql : Option String
  filterId : Option String
  filterName : Option String

/-- Modelled from the spec: `find_filter_id_by_name` is called at
`jira_export.py:202` but is not defined anywhere in the repository
source.  Spec 4.1 describes it: "calls a name-search endpoint, prefers
an exact case-sensitive name match among returned candidates, else falls
back to the first candidate, else fails" — the failure surfaces at the
call site as a `None` result (the caller checks `if filter_id is None`).
`search` stands for the name-search endpoint. -/
def find_filter_id_by_name (search : String → List FilterCand) (name : String) : Option Int :=
  let cands := search name
  match cands.find? (fun c => c.name = name) with
  | some c => some c.id
  | none => cands.head?.map (fun c => c.id)

/-- The source-resolution block of `main`: a truthy `JIRA_JQL` with a
truthy strip wins and is used stripped; else a truthy `JIRA_FILTER_ID`
must parse with `int()` or `RuntimeError` is raised; else a truthy
`JIRA_FILTER_NAME` is resolved by `find_filter_id_by_name`, a `None`
result raising `RuntimeError`; else `RuntimeError`.  The successful
result is the active query string handed to discovery. -/
def resolve_jql (search : String → List FilterCand) (cfg : EnvConfig) : Except PyErr String :=
  if optTruthy cfg.jql && pyStrip (cfg.jql.getD "") ≠ "" then
    .ok (pyStrip (cfg.jql.getD ""))
  else if optTruthy cfg.filterId then
    match pyIntParse (cfg.filterId.getD "") with
    | some n => .ok ("filter=" ++ toString n)
    | none => .error (.runtimeError "JIRA_FILTER_ID must be a number")
  else if optTruthy cfg.filterName then
    match find_filter_id_by_name search (cfg.filterName.getD "") with
    | some fid => .ok ("filter=" ++ toString fid)
    | none => .error (.runtimeError ("Filter not found: " ++ cfg.filterName.getD ""))
  else .error (.runtimeError "Provide JIRA_JQL or JIRA_FILTER_ID or JIRA_FILTER_NAME in .env")

/-
The remote sheet sink (`push_to_gsheet`) and the tail of `main` that
calls it.  Each remote operation is an injection point: the environment
says whether it succeeds or raises.  Cell serialization (the `df_copy`
formatting) is pure and raises nothing relevant to the claims; the
dataframe enters this model only through its row and column counts.
-/

/-- Outcomes of the remote operations of one run, in call order:
credential loading and authorization, `open_by_key`, `get_worksheet(0)`,
`clear`, `resize`, the header `update`, the per-chunk data `update`
(indexed by the chunk offset), the header `format`, and `freeze`.
`rowCount`/`colCount` are the worksheet dimensions read before resizing. -/
structure GsheetEnv where
  auth : Except String Unit
  openByKey : Except String Unit
  worksheet : Except String Unit
  clear : Except String Unit
  rowCount : Nat
  colCount : Nat
  resize : Nat → Nat → Except String Unit
  updateHeader : Except String Unit
  updateChunk : Nat → Except String Unit
  headerFormat : Except String Unit
  freeze : Except String Unit

/-- What `push_to_gsheet` did: skipped for missing configuration, pushed
successfully, or caught an exception and logged it. -/
inductive GsheetOutcome where
  | skipped
  | pushed
  | failedLogged (msg : String)
deriving Repr, DecidableEq

/-- The chunked data upload of `push_to_gsheet`: one `update` call per
chunk offset, the first raise aborting the rest. -/
def pushChunks (env : GsheetEnv) : List Nat → Except String Unit
  | [] => .ok ()
  | i :: is =>
    match env.updateChunk i with
    | .error e => .error e
    | .ok _ => pushChunks env is

/-- The body of the `try` block of `push_to_gsheet` for a table of
`nrows` data rows and `ncols` columns: authorize, open by id, take the
first worksheet, clear, resize when the required dimensions exceed the
current ones (to the componentwise maximum, never shrinking), write the
header row, write the data in chunks of 1000 rows (chunk offsets
`0, 1000, ...` as produced by `range(0, len(df_copy), 1000)`), format
the header and freeze row 1.  The first operation to raise aborts the
rest. -/
def push_body (env : GsheetEnv) (nrows ncols : Nat) : Except String Unit :=
  match env.auth with
  | .error e => .error e
  | .ok _ =>
  match env.openByKey with
  | .error e => .error e
  | .ok _ =>
  match env.worksheet with
  | .error e => .error e
  | .ok _ =>
  match env.clear with
  | .error e => .error e
  | .ok _ =>
  match (if nrows + 1 > env.rowCount || ncols > env.colCount then
          env.resize (max (nrows + 1) env.rowCount) (max ncols env.colCount)
        else .ok ()) with
  | .error e => .error e
  | .ok _ =>
  match env.updateHeader with
  | .error e => .error e
  | .ok _ =>
  match pushChunks env ((List.range ((nrows + 999) / 1000)).map (fun j => j * 1000)) with
  | .error e => .error e
  | .ok _ =>
  match env.headerFormat with
  | .error e => .error e
  | .ok _ => env.freeze

/-- The function `push_to_gsheet`: a falsy `GSHEET_ID` or
`GOOGLE_SERVICE_ACCOUNT_FILE` skips the push entirely (no remote call);
otherwise the body runs inside `try ... except Exception`, so a raise at
any point is caught and logged and never propagates. -/
def push_to_gsheet (gsheetId credFile : Option String) (env : GsheetEnv)
    (nrows ncols : Nat) : GsheetOutcome :=
  if !optTruthy gsheetId || !optTruthy credFile then .skipped
  else
    match push_body env nrows ncols with
    | .ok _ => .pushed
    | .error e => .failedLogged e

/-- Observable outcome of the publish phase of `main`. -/
structure RunResult where
  remote : GsheetOutcome
  excelWritten : Bool
  exitCode : Nat
deriving Repr, DecidableEq

/-- The tail of `main` (lines 234-293): `push_to_gsheet(df)` runs first,
then the spreadsheet file is written, then `main` returns, giving the
process exit status 0.  Because `push_to_gsheet` is total, the file write
and the 0 exit are unconditional in this model (a local write failure
would be fatal, which is outside every claim here). -/
def main_publish (gsheetId credFile : Option String) (env : GsheetEnv)
    (nrows ncols : Nat) : RunResult :=
  let r := push_to_gsheet gsheetId credFile env nrows ncols
  ⟨r, true, 0⟩

/-
The sort (`main`, lines 231-232): `df.sort_values(by=["created"],
ascending=False, inplace=True)` with the default `kind="quicksort"` and
`na_position="last"`.  pandas computes the row permutation in `nargsort`
(pandas/core/sorting.py): the NaT mask is split off, the non-null values
and their positions are reversed, numpy `argsort` sorts them ascending,
the resulting indexer is mapped back, reversed again, and the NaT
positions are appended.  numpy's contract for `kind="quicksort"`
guarantees a sorting permutation but not a stable tie order, so the
argsort kernel enters this model as a parameter constrained by exactly
that contract.
-/

/-- Total injective key for ordering valid naive timestamps
chronologically (radices chosen above each component's range). -/
def dtKey (t : NaiveDT) : Nat :=
  (((((t.year * 16 + t.month) * 32 + t.day) * 32 + t.hour) * 64 + t.minute) * 64 + t.second)
    * 1000000 + t.microsecond

/-- Sort key of a row: the `created` column, `none` for NaT. -/
def created_key (r : Row) : Option Nat := r.created.map dtKey

/-- Rank used to state orderings: NaT below every real timestamp. -/
def keyRank (k : Option Nat) : Nat :=
  match k with
  | none => 0
  | some v => v + 1

/-- The contract numpy documents for `argsort`: the result is a
permutation of the positions whose application to the keys is
nondecreasing.  `kind="quicksort"` (the pandas default used here)
promises nothing further — in particular no stable tie order. -/
def ArgsortSpec (argsort : List Nat → List Nat) : Prop :=
  ∀ ks : List Nat,
    (argsort ks).Perm (List.range ks.length) ∧
    ((argsort ks).map (fun i => ks.getD i 0)).Sorted (· ≤ ·)

/-- pandas `nargsort` local `non_nan_idx`: positions of non-NaT keys. -/
def nonNanIdx (keys : List (Option Nat)) : List Nat :=
  (List.range keys.length).filter (fun i => (keys.getD i none).isSome)

/-- pandas `nargsort` local `nan_idx`: positions of NaT keys, in order. -/
def nanIdx (keys : List (Option Nat)) : List Nat :=
  (List.range keys.length).filter (fun i => !(keys.getD i none).isSome)

/-- The reversed non-NaT positions (the `ascending=False` branch
reverses values and positions before the ascending argsort). -/
def revIdx (keys : List (Option Nat)) : List Nat := (nonNanIdx keys).reverse

/-- The reversed non-NaT key values fed to the argsort kernel. -/
def revVals (keys : List (Option Nat)) : List Nat :=
  (revIdx keys).map (fun i => (keys.getD i none).getD 0)

/-- pandas `nargsort` local `indexer`: the kernel's ascending order
mapped back to original positions. -/
def indexer (argsort : List Nat → List Nat) (keys : List (Option Nat)) : List Nat :=
  (argsort (revVals keys)).map (fun j => (revIdx keys).getD j 0)

/-- pandas `nargsort` for `ascending=False, na_position="last"`, with the
numpy argsort kernel as a parameter: mask off the NaT positions, reverse
the non-null block, argsort it ascending, map positions back, reverse,
and append the NaT positions in original order. -/
def nargsortDesc (argsort : List Nat → List Nat) (keys : List (Option Nat)) : List Nat :=
  (indexer argsort keys).reverse ++ nanIdx keys

/-- Row access by position (positions produced by `nargsortDesc` are
always in range; the default is irrelevant). -/
def rowAt (rows : List Row) (i : Nat) : Row :=
  rows.getD i ⟨.null, .null, .null, .null, .null, .null, .null, none, none, none⟩

/-- The sort statement of `main`:
`df.sort_values(by=["created"], ascending=False, inplace=True)` guarded
by `if not df.empty`, via `nargsortDesc` over the `created` keys. -/
def sort_values_created (argsort : List Nat → List Nat) (rows : List Row) : List Row :=
  if rows.isEmpty then rows
  else (nargsortDesc argsort (rows.map created_key)).map (rowAt rows)

/-- Spec-side definition, from the claim's words: a stable sort by
`created` descending with null `created` ordered below all non-null
values (Mathlib's insertion sort is stable). -/
def stable_sort_desc (rows : List Row) : List Row :=
  rows.insertionSort (fun a b => keyRank (created_key b) ≤ keyRank (created_key a))

/-- A kernel satisfying numpy's argsort contract that breaks ties by
preferring the later position: a legitimate behavior for
`kind="quicksort"`, which promises no tie order. -/
def badArgsort (ks : List Nat) : List Nat :=
  (List.range ks.length).insertionSort
    (fun i j => ks.getD i 0 < ks.getD j 0 ∨ (ks.getD i 0 = ks.getD j 0 ∧ j ≤ i))

/-- A row with the given key string and `created` value, all other
fields as a fully-missing issue would produce them. -/
def mkRowKC (k : String) (c : Option NaiveDT) : Row :=
  ⟨.str k, .null, .null, .null, .null, .null, .str "Unresolved", c, none, none⟩

/-- An early timestamp `T1`. -/
def c8early : NaiveDT := ⟨2025, 1, 1, 0, 0, 0, 0⟩

/-- A later timestamp `T2`. -/
def c8late : NaiveDT := ⟨2025, 1, 2, 0, 0, 0, 0⟩

/-- Two rows sharing one `created` timestamp, distinguished by key. -/
def c8rowA : Row := mkRowKC "A" (some c8early)

/-- Second of the two tied rows. -/
def c8rowB : Row := mkRowKC "B" (some c8early)

/-- A row with the earlier timestamp. -/
def c8rowT1 : Row := mkRowKC "t1" (some c8early)

/-- A row with the later timestamp. -/
def c8rowT2 : Row := mkRowKC "t2" (some c8late)

/-- A row with no `created` timestamp. -/
def c8rowNull : Row := mkRowKC "n" none

/-- A well-formed paginated response script: every page is a 200, every
page before the last carries a truthy continuation cursor and a
non-empty identifier page, and the last page carries no truthy cursor. -/
def wellPaged : List HttpResponse → Bool
  | [] => false
  | r :: rs =>
    match rs with
    | [] => r.status = 200 && !optTruthy r.nextPageToken
    | _ :: _ =>
      r.status = 200 && optTruthy r.nextPageToken && !r.issues.isEmpty && wellPaged rs

/-- A 200 page with one identifier that carries a continuation cursor. -/
def c3okPage1 : HttpResponse :=
  { status := 200, issues := [[("id", .str "A1")]], nextPageToken := some "tok" }

/-- A final 200 page with one identifier and no cursor. -/
def c3okPage2 : HttpResponse :=
  { status := 200, issues := [[("id", .str "B1")]], nextPageToken := none }

/-- An empty 200 page that still carries a continuation cursor. -/
def c3emptyPageWithCursor : HttpResponse :=
  { status := 200, issues := [], nextPageToken := some "tok" }

/-- A 429 response with `Retry-After: 2`. -/
def c4rate2 : HttpResponse := { status := 429, retryAfter := some "2" }

/-- A 429 response with no `Retry-After` header. -/
def c4rateNoHeader : HttpResponse := { status := 429 }

/-- A 503 response with a body. -/
def c4fatal503 : HttpResponse := { status := 503, body := "oops" }

/-- A remote environment whose open-by-id call raises and whose other
operations succeed (the spec's fault-injection scenario). -/
def c2failingOpenEnv : GsheetEnv :=
  { auth := .ok (), openByKey := .error "boom", worksheet := .ok (), clear := .ok (),
    rowCount := 100, colCount := 10, resize := fun _ _ => .ok (), updateHeader := .ok (),
    updateChunk := fun _ => .ok (), headerFormat := .ok (), freeze := .ok () }

/-! ### Lemmas about the nested accessor -/

/-- On a dict, a `g` step is the plain lookup (the `or {}` only matters
for the empty dict, where the lookup misses anyway). -/
theorem gStep_dict (kvs : List (String × JVal)) (k : String) :
    gStep (.dict kvs) k = .ok (pyGet kvs k) := by
  cases kvs <;> rfl

/-- A `g` step characterised: a falsy or dict current value looks up
(with falsy values behaving like the empty dict), a truthy non-dict
raises `AttributeError`. -/
theorem gStep_eq (v : JVal) (k : String) :
    gStep v k =
      if (!truthy v || isDict v) = true then .ok (gStepVal v k)
      else .error .attributeError := by
  cases v with
  | null => rfl
  | str s => by_cases hs : s = "" <;> simp [gStep, gStepVal, truthy, isDict, hs]
  | num n => by_cases hn : n = 0 <;> simp [gStep, gStepVal, truthy, isDict, hn]
  | bool b => cases b <;> rfl
  | list xs => cases xs <;> rfl
  | dict kvs => cases kvs <;> rfl

/-- Unfolding a `g` traversal one dict step. -/
theorem g_cons_dict (kvs : List (String × JVal)) (k : String) (ks : List String) :
    g (.dict kvs) (k :: ks) = g (pyGet kvs k) ks := by
  show (match gStep (.dict kvs) k with | .ok v => g v ks | .error e => .error e) = _
  rw [gStep_dict]

/-- A null current value survives any remaining path as null. -/
theorem g_null (ks : List String) : g .null ks = .ok .null := by
  induction ks with
  | nil => rfl
  | cons k ks ih => exact (show g .null (k :: ks) = g .null ks from rfl).trans ih

/-! ### C6 -/

/-- C6: normalization does not raise on missing nested fields — with the
`fields` object a dict in which every consulted key is absent, every
lookup path yields null and `flatten_issue` returns the all-null row
with resolution `"Unresolved"`; a present `resolution.name` of `"Done"`
(or any non-empty name) yields that name; an absent or null `resolution`
yields `"Unresolved"`. -/
theorem C6_flatten_no_raise_and_resolution :
    (∀ (ikvs fkvs : List (String × JVal)),
        ikvs.lookup "fields" = some (.dict fkvs) →
        (∀ k, k ∈ (["summary", "assignee", "reporter", "priority", "status",
            "resolution", "created", "updated", "duedate"] : List String) →
          fkvs.lookup k = none) →
        flatten_issue ikvs = .ok ⟨pyGet ikvs "key", .null, .null, .null, .null, .null,
          .str "Unresolved", none, none, none⟩)
    ∧ (∀ ikvs : List (String × JVal),
        ikvs.lookup "fields" = some (.dict [("resolution", .dict [("name", .str "Done")])]) →
        flatten_issue ikvs = .ok ⟨pyGet ikvs "key", .null, .null, .null, .null, .null,
          .str "Done", none, none, none⟩)
    ∧ (∀ (fkvs rkvs : List (String × JVal)) (s : String),
        pyGet fkvs "resolution" = .dict rkvs → rkvs.lookup "name" = some (.str s) →
        s ≠ "" → resolution_name (.dict fkvs) = .ok (.str s))
    ∧ (∀ fkvs : List (String × JVal),
        pyGet fkvs "resolution" = .null →
        resolution_name (.dict fkvs) = .ok (.str "Unresolved")) := by
  refine ⟨?_, ?_, ?_, ?_⟩
  · intro ikvs fkvs hf habs
    have p1 : pyGet fkvs "summary" = .null := by simp [pyGet, habs "summary" (by simp)]
    have p2 : pyGet fkvs "assignee" = .null := by simp [pyGet, habs "assignee" (by simp)]
    have p3 : pyGet fkvs "reporter" = .null := by simp [pyGet, habs "reporter" (by simp)]
    have p4 : pyGet fkvs "priority" = .null := by simp [pyGet, habs "priority" (by simp)]
    have p5 : pyGet fkvs "status" = .null := by simp [pyGet, habs "status" (by simp)]
    have p6 : pyGet fkvs "resolution" = .null := by simp [pyGet, habs "resolution" (by simp)]
    have p7 : pyGet fkvs "created" = .null := by simp [pyGet, habs "created" (by simp)]
    have p8 : pyGet fkvs "updated" = .null := by simp [pyGet, habs "updated" (by simp)]
    have p9 : pyGet fkvs "duedate" = .null := by simp [pyGet, habs "duedate" (by simp)]
    have hfield : pyGetD ikvs "fields" (.dict []) = .dict fkvs := by simp [pyGetD, hf]
    have hres : resolution_name (.dict fkvs) = .ok (.str "Unresolved") := by
      simp [resolution_name, p6]
    have hw : g (.dict fkvs) ["summary"] = .ok .null := by rw [g_cons_dict, p1, g_null]
    have ha : g (.dict fkvs) ["assignee", "displayName"] = .ok .null := by
      rw [g_cons_dict, p2, g_null]
    have hrep : g (.dict fkvs) ["reporter", "displayName"] = .ok .null := by
      rw [g_cons_dict, p3, g_null]
    have hpri : g (.dict fkvs) ["priority", "name"] = .ok .null := by
      rw [g_cons_dict, p4, g_null]
    have hst : g (.dict fkvs) ["status", "name"] = .ok .null := by
      rw [g_cons_dict, p5, g_null]
    have hc : (g (.dict fkvs) ["created"]).bind dt_obj = .ok none := by
      rw [g_cons_dict, p7, g_null]; rfl
    have hu : (g (.dict fkvs) ["updated"]).bind dt_obj = .ok none := by
      rw [g_cons_dict, p8, g_null]; rfl
    have hd : (g (.dict fkvs) ["duedate"]).bind d_obj = .ok none := by
      rw [g_cons_dict, p9, g_null]; rfl
    simp only [flatten_issue, hfield, hres, hw, ha, hrep, hpri, hst, hc, hu, hd]
  · intro ikvs hf
    simp only [flatten_issue, pyGetD, hf]
    rfl
  · intro fkvs rkvs s h1 h2 hs
    have h2' : pyGet rkvs "name" = .str s := by simp [pyGet, h2]
    simp [resolution_name, h1, h2', truthy, hs]
  · intro fkvs h
    simp [resolution_name, h]

/-- Witness for C6 on concrete inputs. -/
theorem C6_flatten_no_raise_and_resolution_witness :
    flatten_issue [("key", .str "K"), ("fields", .dict [])] =
      .ok ⟨.str "K", .null, .null, .null, .null, .null, .str "Unresolved", none, none, none⟩ ∧
    flatten_issue [("fields", .dict [("resolution", .dict [("name", .str "Done")])])] =
      .ok ⟨.null, .null, .null, .null, .null, .null, .str "Done", none, none, none⟩ ∧
    resolution_name (.dict []) = .ok (.str "Unresolved") := by
  refine ⟨?_, ?_, ?_⟩
  · exact C6_flatten_no_raise_and_resolution.1 [("key", .str "K"), ("fields", .dict [])] []
      rfl (fun k _ => rfl)
  · exact C6_flatten_no_raise_and_resolution.2.1 _ rfl
  · exact C6_flatten_no_raise_and_resolution.2.2.2 [] rfl

/-! ### C9 -/

/-- C9 counterexample: with the intermediate segment holding the empty
string — a non-mapping, non-null value — the accessor returns null
instead of raising, because `(cur or {})` replaces every falsy value by
the empty dict. -/
theorem C9_falsy_non_mapping_does_not_raise :
    g (.dict [("assignee", .str "")]) ["assignee", "displayName"] = .ok .null ∧
    isDict (.str "") = false ∧ JVal.str "" ≠ JVal.null := by
  refine ⟨rfl, rfl, fun h => JVal.noConfusion h⟩

/-- C9 (amended): a falsy segment value (null, empty string, 0, false,
empty container) behaves like the empty dict and yields null; a truthy
non-dict raises `AttributeError`; the accessor raises exactly when the
traversal meets a truthy non-dict; and normalization therefore tolerates
falsy non-mapping intermediates. -/
theorem C9_accessor_raises_iff_truthy_non_mapping :
    (∀ (v : JVal) (k : String), truthy v = false → gStep v k = .ok .null)
    ∧ (∀ (v : JVal) (k : String), truthy v = true → isDict v = false →
        gStep v k = .error .attributeError)
    ∧ (∀ (v : JVal) (ks : List String),
        g v ks = .error .attributeError ↔ gSafe v ks = false)
    ∧ flatten_issue [("fields", .dict [("assignee", .str "")])] =
        .ok ⟨.null, .null, .null, .null, .null, .null, .str "Unresolved",
          none, none, none⟩ := by
  refine ⟨?_, ?_, ?_, ?_⟩
  · intro v k h
    rw [gStep_eq, if_pos (by simp [h])]
    unfold gStepVal
    rw [h]
    rfl
  · intro v k ht hd
    rw [gStep_eq, if_neg (by simp [ht, hd])]
  · intro v ks
    induction ks generalizing v with
    | nil => simp [g, gSafe]
    | cons k ks ih =>
      rw [show g v (k :: ks) = match gStep v k with
            | .ok w => g w ks
            | .error e => .error e from rfl]
      rw [gStep_eq]
      by_cases hc : (!truthy v || isDict v) = true
      · rw [if_pos hc]
        simp only [gSafe, hc, Bool.true_and]
        exact ih (gStepVal v k)
      · rw [if_neg hc]
        simp [gSafe, Bool.eq_false_iff.mpr hc]
  · rfl

/-- Witness for the hypothesis-bearing parts of the amended C9. -/
theorem C9_accessor_raises_iff_truthy_non_mapping_witness :
    gStep (.num 0) "x" = .ok .null ∧
    gStep (.str "a") "x" = .error .attributeError := by
  refine ⟨?_, ?_⟩
  · exact C9_accessor_raises_iff_truthy_non_mapping.1 (.num 0) "x" rfl
  · exact C9_accessor_raises_iff_truthy_non_mapping.2.1 (.str "a") "x" (by decide) rfl

/-! ### C10 -/

/-- C10: when the resolution object is a mapping whose `name` entry is
present but falsy (for example the empty string), normalization still
produces the literal `"Unresolved"`: the default applies beyond the
absent and null cases. -/
theorem C10_falsy_resolution_name_defaults (fkvs rkvs : List (String × JVal)) (v : JVal)
    (h1 : pyGet fkvs "resolution" = .dict rkvs)
    (h2 : rkvs.lookup "name" = some v)
    (h3 : truthy v = false) :
    resolution_name (.dict fkvs) = .ok (.str "Unresolved") := by
  have h2' : pyGet rkvs "name" = v := by simp [pyGet, h2]
  simp [resolution_name, h1, h2', h3]

/-- Witness for C10: an empty-string resolution name. -/
theorem C10_falsy_resolution_name_defaults_witness :
    resolution_name (.dict [("resolution", .dict [("name", .str "")])]) =
      .ok (.str "Unresolved") :=
  C10_falsy_resolution_name_defaults [("resolution", .dict [("name", .str "")])]
    [("name", .str "")] (.str "") rfl rfl rfl

/-! ### Lemmas about chunking -/

/-- The slice indices of the bulk-fetch loop produce exactly the
structural chunking into blocks of 100. -/
theorem bulk_fetch_calls_eq_chunks100 (ids : List α) :
    bulk_fetch_calls ids = chunks100 ids := by
  induction ids using chunks100.induct with
  | case1 => simp [chunks100, bulk_fetch_calls]
  | case2 x xs ih =>
    have hlen : ((x :: xs).length + 99) / 100 = (((x :: xs).drop 100).length + 99) / 100 + 1 := by
      simp only [List.length_drop, List.length_cons]
      omega
    rw [chunks100, ← ih]
    unfold bulk_fetch_calls
    rw [hlen, List.range_succ_eq_map]
    simp only [List.map_cons, List.map_map, Nat.zero_mul, List.drop_zero]
    congr 1
    apply List.map_congr_left
    intro j _
    simp only [Function.comp_apply]
    rw [List.drop_drop]
    congr 2
    omega

/-- The chunks concatenate back to the whole list. -/
theorem chunks100_flatten (ids : List α) : (chunks100 ids).flatten = ids := by
  induction ids using chunks100.induct with
  | case1 => simp [chunks100]
  | case2 x xs ih =>
    rw [chunks100]
    simp only [List.flatten_cons, ih, List.take_append_drop]

/-- Every chunk is nonempty and holds at most 100 elements. -/
theorem chunks100_sizes (ids : List α) :
    ∀ c ∈ chunks100 ids, c ≠ [] ∧ c.length ≤ 100 := by
  induction ids using chunks100.induct with
  | case1 => intro c hc; simp [chunks100] at hc
  | case2 x xs ih =>
    intro c hc
    rw [chunks100] at hc
    rcases List.mem_cons.mp hc with h | h
    · subst h
      refine ⟨by simp, ?_⟩
      simp [List.length_take]
    · exact ih c h

/-! ### C5 -/

/-- C5: bulk retrieval partitions the identifier list into consecutive
chunks of at most 100 (the chunks concatenate back to the input and each
is nonempty with at most 100 elements), issues exactly one request per
chunk and concatenates the responses in chunk order; 150 identifiers give
exactly two calls of sizes 100 and 50; and a discovery result of zero
identifiers makes no bulk request and yields the empty list. -/
theorem C5_bulk_chunking_and_empty_skip :
    (∀ ids : List String,
        (bulk_fetch_calls ids).flatten = ids ∧
        ∀ c ∈ bulk_fetch_calls ids, c ≠ [] ∧ c.length ≤ 100)
    ∧ (∀ (api : List String → List (List (String × JVal))) (ids : List String),
        bulk_fetch_issues api ids = ((bulk_fetch_calls ids).map api).flatten)
    ∧ (∀ ids : List String, ids.length = 150 →
        bulk_fetch_calls ids = [ids.take 100, (ids.drop 100).take 100] ∧
        (bulk_fetch_calls ids).map List.length = [100, 50])
    ∧ (∀ api : List String → List (List (String × JVal)),
        fetch_all_issues api ([] : List String) = ([], [])) := by
  refine ⟨?_, ?_, ?_, ?_⟩
  · intro ids
    rw [bulk_fetch_calls_eq_chunks100]
    exact ⟨chunks100_flatten ids, chunks100_sizes ids⟩
  · intro api ids
    unfold bulk_fetch_issues bulk_fetch_calls
    rw [List.map_map]
    rfl
  · intro ids h
    have hcalls : bulk_fetch_calls ids = [ids.take 100, (ids.drop 100).take 100] := by
      unfold bulk_fetch_calls
      rw [h]
      simp only [List.range_succ, List.range_zero, List.map_append, List.map_cons,
        List.map_nil, List.nil_append, Nat.zero_mul, List.drop_zero, Nat.one_mul]
      rfl
    refine ⟨hcalls, ?_⟩
    rw [hcalls]
    simp [List.length_take, List.length_drop, h]
  · intro api
    rfl

/-- Witness for C5 at a concrete 150-element identifier list. -/
theorem C5_bulk_chunking_and_empty_skip_witness :
    (bulk_fetch_calls (List.replicate 150 "x")).map List.length = [100, 50] :=
  ((C5_bulk_chunking_and_empty_skip.2.2.1 (List.replicate 150 "x") (by simp)).2)

/-! ### Lemmas about the discovery loop -/

/-- One unfolding of the discovery loop at a 429 with a non-negative
wait: sleep and continue with the rest of the script. -/
theorem searchLoop_cons_429 (r : HttpResponse) (script : List HttpResponse)
    (ids : List JVal) (sleeps : List Int)
    (h429 : r.status = 429) (hw : 0 ≤ retry_wait r.retryAfter) :
    searchLoop (r :: script) ids sleeps =
      searchLoop script ids (sleeps ++ [retry_wait r.retryAfter]) := by
  have hsl : sleep_retry_after r.retryAfter = .ok (retry_wait r.retryAfter) := by
    simp [sleep_retry_after, not_lt.mpr hw]
  simp only [searchLoop]
  rw [if_pos h429, hsl]

/-- One unfolding of the discovery loop at a 200: append the page and
either stop or continue depending on cursor and emptiness. -/
theorem searchLoop_cons_200 (r : HttpResponse) (script : List HttpResponse)
    (ids : List JVal) (sleeps : List Int) (hs : r.status = 200) :
    searchLoop (r :: script) ids sleeps =
      if (!optTruthy r.nextPageToken || r.issues.isEmpty) = true then
        some (sleeps, .ok (ids ++ r.issues.map idOrKey))
      else searchLoop script (ids ++ r.issues.map idOrKey) sleeps := by
  simp only [searchLoop]
  rw [if_neg (by simp [hs]), if_neg (by simp [hs])]

/-- One unfolding of the bulk-fetch retry loop at a 429 with a
non-negative wait. -/
theorem bulkRequestLoop_cons_429 (r : HttpResponse) (script : List HttpResponse)
    (sleeps : List Int)
    (h429 : r.status = 429) (hw : 0 ≤ retry_wait r.retryAfter) :
    bulkRequestLoop (r :: script) sleeps =
      bulkRequestLoop script (sleeps ++ [retry_wait r.retryAfter]) := by
  have hsl : sleep_retry_after r.retryAfter = .ok (retry_wait r.retryAfter) := by
    simp [sleep_retry_after, not_lt.mpr hw]
  simp only [bulkRequestLoop]
  rw [if_pos h429, hsl]

/-- Accumulator form of the pagination result on a well-formed script:
the loop returns the accumulated identifiers followed by every page's
identifiers in page order, with no sleeps added. -/
theorem searchLoop_wellPaged (script : List HttpResponse) :
    ∀ ids sleeps, wellPaged script = true →
      searchLoop script ids sleeps =
        some (sleeps, .ok (ids ++ (script.map (fun r => r.issues.map idOrKey)).flatten)) := by
  induction script with
  | nil => intro ids sleeps h; simp [wellPaged] at h
  | cons r rs ih =>
    intro ids sleeps h
    cases rs with
    | nil =>
      simp only [wellPaged, Bool.and_eq_true, decide_eq_true_eq] at h
      obtain ⟨hs, ht⟩ := h
      rw [searchLoop_cons_200 r [] ids sleeps hs, if_pos (by simp [ht])]
      simp
    | cons r2 rs2 =>
      simp only [wellPaged, Bool.and_eq_true, decide_eq_true_eq] at h
      obtain ⟨⟨⟨hs, ht⟩, hne⟩, hwp⟩ := h
      have hne' : r.issues.isEmpty = false := by
        cases hie : r.issues.isEmpty <;> simp [hie] at hne ⊢
      rw [searchLoop_cons_200 r (r2 :: rs2) ids sleeps hs, if_neg (by simp [ht, hne'])]
      rw [ih _ _ hwp]
      simp [List.append_assoc]

/-- Flattening pages preserves the total identifier count. -/
theorem pages_flatten_length (script : List HttpResponse) :
    ((script.map (fun r => r.issues.map idOrKey)).flatten).length =
      (script.map (fun r => r.issues.length)).sum := by
  induction script with
  | nil => rfl
  | cons r rs ih => simp [ih]

/-! ### C3 -/

/-- C3 counterexample: a script of two pages whose identifier counts sum
to one, with the final page carrying no cursor — but the first page is
empty while carrying a cursor, so the loop stops there and discovery
returns zero identifiers instead of one. -/
theorem C3_empty_page_with_cursor_drops_rest :
    search_issue_ids_by_jql [c3emptyPageWithCursor, c3okPage2] = some ([], .ok []) ∧
    ([c3emptyPageWithCursor, c3okPage2].map (fun r => r.issues.length)).sum = 1 ∧
    optTruthy c3okPage2.nextPageToken = false := by
  exact ⟨rfl, rfl, rfl⟩

/-- C3 (amended): on a script of N pages whose identifier counts sum to
K, where every page before the last is non-empty and carries a cursor
and the last carries none, discovery returns exactly the K identifiers
concatenated in page order (not re-sorted); and the loop terminates as
soon as a response carries no truthy cursor or an empty page, leaving
the rest of the script unconsumed. -/
theorem C3_pagination_collects_all_pages :
    (∀ script : List HttpResponse, wellPaged script = true →
        search_issue_ids_by_jql script =
          some ([], .ok ((script.map (fun r => r.issues.map idOrKey)).flatten)))
    ∧ (∀ script : List HttpResponse,
        ((script.map (fun r => r.issues.map idOrKey)).flatten).length =
          (script.map (fun r => r.issues.length)).sum)
    ∧ (∀ (r : HttpResponse) (rest : List HttpResponse) (ids : List JVal) (sleeps : List Int),
        r.status = 200 →
        (optTruthy r.nextPageToken = false ∨ r.issues = []) →
        searchLoop (r :: rest) ids sleeps =
          some (sleeps, .ok (ids ++ r.issues.map idOrKey))) := by
  refine ⟨?_, pages_flatten_length, ?_⟩
  · intro script h
    simpa using searchLoop_wellPaged script [] [] h
  · intro r rest ids sleeps hs hterm
    simp only [searchLoop, hs]
    rw [if_neg (by simp), if_neg (by simp)]
    rcases hterm with ht | hi
    · rw [if_pos (by simp [ht])]
    · rw [if_pos (by simp [hi])]

/-- Witness for the amended C3 on a concrete two-page script. -/
theorem C3_pagination_collects_all_pages_witness :
    search_issue_ids_by_jql [c3okPage1, c3okPage2] =
      some ([], .ok [.str "A1", .str "B1"]) :=
  C3_pagination_collects_all_pages.1 [c3okPage1, c3okPage2] rfl

/-! ### C4 -/

/-- C4 counterexample: a 429 whose `Retry-After` header parses to the
negative integer -5 does not sleep and retry — `time.sleep(-5)` raises
an uncaught `ValueError`, so the run aborts instead of succeeding on the
following 200. -/
theorem C4_negative_retry_after_aborts :
    search_issue_ids_by_jql
        [{ status := 429, retryAfter := some "-5" }, { status := 200 }] =
      some ([], .error (.valueError "sleep length must be non-negative")) ∧
    pyIntParse "-5" = some (-5) := by
  exact ⟨rfl, rfl⟩

/-- C4 (amended): a 429 at either phase sleeps for the parsed
`Retry-After` seconds — 10 when the header is absent, empty or
unparsable as an integer — and retries the same request, with no attempt
cap, provided the parsed wait is non-negative (a negative wait raises in
`time.sleep`); a 429 with `Retry-After: 2` followed by a 200 yields
exactly one sleep of 2 seconds and the successful result; any other
non-200 status raises a fatal error carrying the status code and the
response body. -/
theorem C4_rate_limit_retry_policy :
    (∀ (s : String) (n : Int), pyIntParse s = some n → s ≠ "" → retry_wait (some s) = n)
    ∧ (∀ s : String, pyIntParse s = none → retry_wait (some s) = 10)
    ∧ retry_wait none = 10
    ∧ (∀ (pre script : List HttpResponse) (ids : List JVal) (sleeps : List Int),
        (∀ x ∈ pre, x.status = 429 ∧ 0 ≤ retry_wait x.retryAfter) →
        searchLoop (pre ++ script) ids sleeps =
          searchLoop script ids (sleeps ++ pre.map (fun x => retry_wait x.retryAfter)))
    ∧ (∀ (pre script : List HttpResponse) (sleeps : List Int),
        (∀ x ∈ pre, x.status = 429 ∧ 0 ≤ retry_wait x.retryAfter) →
        bulkRequestLoop (pre ++ script) sleeps =
          bulkRequestLoop script (sleeps ++ pre.map (fun x => retry_wait x.retryAfter)))
    ∧ (∀ issues : List (List (String × JVal)),
        bulkRequestLoop
            [{ status := 429, retryAfter := some "2" }, { status := 200, issues := issues }] [] =
          some ([2], .ok issues))
    ∧ (∀ (r : HttpResponse) (rest : List HttpResponse) (ids : List JVal) (sleeps : List Int),
        r.status ≠ 429 → r.status ≠ 200 →
        searchLoop (r :: rest) ids sleeps =
          some (sleeps, .error (.runtimeError
            ("Failed to search issue IDs via /search/jql: " ++ toString r.status ++ " " ++ r.body))) ∧
        bulkRequestLoop (r :: rest) sleeps =
          some (sleeps, .error (.runtimeError
            ("Bulk fetch failed: " ++ toString r.status ++ " " ++ r.body)))) := by
  refine ⟨?_, ?_, rfl, ?_, ?_, ?_, ?_⟩
  · intro s n hp hs
    simp [retry_wait, hs, hp]
  · intro s hp
    by_cases hs : s = "" <;> simp [retry_wait, hs, hp]
  · intro pre
    induction pre with
    | nil => intro script ids sleeps _; simp
    | cons x pre ih =>
      intro script ids sleeps hpre
      obtain ⟨hx429, hxw⟩ := hpre x (by simp)
      rw [List.cons_append, searchLoop_cons_429 x (pre ++ script) ids sleeps hx429 hxw]
      rw [ih script ids (sleeps ++ [retry_wait x.retryAfter])
        (fun y hy => hpre y (by simp [hy]))]
      simp
  · intro pre
    induction pre with
    | nil => intro script sleeps _; simp
    | cons x pre ih =>
      intro script sleeps hpre
      obtain ⟨hx429, hxw⟩ := hpre x (by simp)
      rw [List.cons_append, bulkRequestLoop_cons_429 x (pre ++ script) sleeps hx429 hxw]
      rw [ih script (sleeps ++ [retry_wait x.retryAfter])
        (fun y hy => hpre y (by simp [hy]))]
      simp
  · intro issues
    rfl
  · intro r rest ids sleeps h429 h200
    constructor
    · simp only [searchLoop]
      rw [if_neg h429, if_pos h200]
    · simp only [bulkRequestLoop]
      rw [if_neg h429, if_pos h200]

/-- Witness for the hypothesis-bearing parts of the amended C4 on
concrete scripts: two 429s before the 200 yield two sleeps (no cap), a
non-integral header falls back to 10 seconds, and a 503 is fatal with
its status and body in the message. -/
theorem C4_rate_limit_retry_policy_witness :
    retry_wait (some "2") = 2 ∧
    retry_wait (some "soon") = 10 ∧
    searchLoop ([c4rate2, c4rateNoHeader] ++ [c3okPage2]) [] [] =
      searchLoop [c3okPage2] []
        ([] ++ [c4rate2, c4rateNoHeader].map (fun x => retry_wait x.retryAfter)) ∧
    bulkRequestLoop [c4rate2, { status := 200, issues := [[("id", .str "Z")]] }] [] =
      some ([2], .ok [[("id", .str "Z")]]) ∧
    searchLoop [c4fatal503] [] [] =
      some ([], .error (.runtimeError
        ("Failed to search issue IDs via /search/jql: " ++ toString 503 ++ " " ++ "oops"))) := by
  refine ⟨?_, ?_, ?_, ?_, ?_⟩
  · exact C4_rate_limit_retry_policy.1 "2" 2 rfl (by decide)
  · exact C4_rate_limit_retry_policy.2.1 "soon" rfl
  · exact C4_rate_limit_retry_policy.2.2.2.1 [c4rate2, c4rateNoHeader] [c3okPage2] [] []
      (by
        intro x hx
        simp only [List.mem_cons, List.not_mem_nil, or_false] at hx
        rcases hx with h | h <;> subst h <;> exact ⟨rfl, by decide⟩)
  · exact C4_rate_limit_retry_policy.2.2.2.2.2.1 [[("id", .str "Z")]]
  · exact (C4_rate_limit_retry_policy.2.2.2.2.2.2 c4fatal503 [] [] []
      (by decide) (by decide)).1

/-! ### C1 -/

/-- C1: when neither a query string nor a filter id is configured (unset,
empty, or — for the query — blank after stripping) and a filter name is
configured, the program resolves the name through the name-search
endpoint; an empty candidate list is a fatal configuration error, and
otherwise the query becomes `filter=<id>` where the id is that of the
first exact case-sensitive name match if one exists, else of the first
candidate. -/
theorem C1_filter_name_resolution (cfg : EnvConfig) (search : String → List FilterCand)
    (hq : optTruthy cfg.jql = false ∨ pyStrip (cfg.jql.getD "") = "")
    (hid : optTruthy cfg.filterId = false)
    (hname : optTruthy cfg.filterName = true) :
    (search (cfg.filterName.getD "") = [] →
      resolve_jql search cfg =
        .error (.runtimeError ("Filter not found: " ++ cfg.filterName.getD ""))) ∧
    (∀ (c : FilterCand) (cs : List FilterCand),
      search (cfg.filterName.getD "") = c :: cs →
      resolve_jql search cfg =
        .ok ("filter=" ++
          toString ((((c :: cs).find? (fun x => x.name = cfg.filterName.getD "")).getD c).id))) := by
  have hq' : (optTruthy cfg.jql && pyStrip (cfg.jql.getD "") ≠ "") = false := by
    rcases hq with h | h <;> simp [h]
  constructor
  · intro hempty
    unfold resolve_jql
    rw [if_neg (by simp only [hq']; exact Bool.false_ne_true),
      if_neg (by simp [hid]), if_pos hname]
    simp [find_filter_id_by_name, hempty]
  · intro c cs hcands
    unfold resolve_jql
    rw [if_neg (by simp only [hq']; exact Bool.false_ne_true),
      if_neg (by simp [hid]), if_pos hname]
    simp only [find_filter_id_by_name, hcands]
    cases hf : (c :: cs).find? (fun x => x.name = cfg.filterName.getD "") with
    | some c' => simp [hf]
    | none => simp [hf]

/-- Witness for C1: a name search with a non-first exact match resolves
to the exact match's id, and an empty search result is fatal. -/
theorem C1_filter_name_resolution_witness :
    resolve_jql (fun _ => [⟨7, "Other"⟩, ⟨9, "Mine"⟩]) ⟨none, none, some "Mine"⟩ =
      .ok "filter=9" ∧
    resolve_jql (fun _ => []) ⟨none, none, some "Mine"⟩ =
      .error (.runtimeError "Filter not found: Mine") := by
  constructor
  · exact (C1_filter_name_resolution ⟨none, none, some "Mine"⟩
      (fun _ => [⟨7, "Other"⟩, ⟨9, "Mine"⟩]) (Or.inl rfl) rfl rfl).2 ⟨7, "Other"⟩ [⟨9, "Mine"⟩] rfl
  · exact (C1_filter_name_resolution ⟨none, none, some "Mine"⟩
      (fun _ => []) (Or.inl rfl) rfl rfl).1 rfl

/-! ### C2 -/

/-- C2: the remote publish is best-effort and never fatal — for every
configuration and every behavior of the remote operations the local
spreadsheet is written and the exit status is 0; a falsy remote id or
credential path skips the push entirely; a raise inside the push body is
caught and logged; and in particular a failing open-by-id call (with
authorization succeeding) surfaces as exactly that logged failure. -/
theorem C2_remote_sink_never_fatal :
    (∀ (gid cf : Option String) (env : GsheetEnv) (r c : Nat),
        (main_publish gid cf env r c).excelWritten = true ∧
        (main_publish gid cf env r c).exitCode = 0)
    ∧ (∀ (gid cf : Option String) (env : GsheetEnv) (r c : Nat),
        optTruthy gid = false ∨ optTruthy cf = false →
        (main_publish gid cf env r c).remote = .skipped)
    ∧ (∀ (gid cf : Option String) (env : GsheetEnv) (r c : Nat) (e : String),
        optTruthy gid = true → optTruthy cf = true →
        push_body env r c = .error e →
        (main_publish gid cf env r c).remote = .failedLogged e)
    ∧ (∀ (env : GsheetEnv) (r c : Nat) (e : String),
        env.auth = .ok () → env.openByKey = .error e →
        push_body env r c = .error e) := by
  refine ⟨?_, ?_, ?_, ?_⟩
  · intro gid cf env r c
    exact ⟨rfl, rfl⟩
  · intro gid cf env r c h
    rcases h with h | h <;> simp [main_publish, push_to_gsheet, h]
  · intro gid cf env r c e hg hc hb
    simp [main_publish, push_to_gsheet, hg, hc, hb]
  · intro env r c e ha ho
    simp [push_body, ha, ho]

/-- Witness for C2: with a failing open-by-id call the run still writes
the file, exits 0 and logs the failure; with the remote id unset the
push is skipped. -/
theorem C2_remote_sink_never_fatal_witness :
    (main_publish (some "G") (some "C") c2failingOpenEnv 5 10).remote =
      .failedLogged "boom" ∧
    (main_publish (some "G") (some "C") c2failingOpenEnv 5 10).excelWritten = true ∧
    (main_publish (some "G") (some "C") c2failingOpenEnv 5 10).exitCode = 0 ∧
    (main_publish none (some "C") c2failingOpenEnv 5 10).remote = .skipped := by
  refine ⟨?_, ?_, ?_, ?_⟩
  · exact C2_remote_sink_never_fatal.2.2.1 (some "G") (some "C") c2failingOpenEnv 5 10 "boom"
      rfl rfl (C2_remote_sink_never_fatal.2.2.2 c2failingOpenEnv 5 10 "boom" rfl rfl)
  · exact (C2_remote_sink_never_fatal.1 (some "G") (some "C") c2failingOpenEnv 5 10).1
  · exact (C2_remote_sink_never_fatal.1 (some "G") (some "C") c2failingOpenEnv 5 10).2
  · exact C2_remote_sink_never_fatal.2.1 none (some "C") c2failingOpenEnv 5 10 (Or.inl rfl)

/-! ### Lemmas about the timestamp parser -/

/-- A rendered digit is a digit character. -/
theorem isDigitChar_renderDigit (d : Nat) (h : d < 10) :
    isDigitChar (renderDigit d) = true := by
  interval_cases d <;> rfl

/-- Parsing a rendered digit recovers its value. -/
theorem digitVal_renderDigit (d : Nat) (h : d < 10) :
    digitVal (renderDigit d) = d := by
  interval_cases d <;> rfl

/-- A rendered digit is not a colon. -/
theorem renderDigit_ne_colon (d : Nat) (h : d < 10) : ¬(renderDigit d = ':') := by
  interval_cases d <;> decide

/-- A rendered digit is at least the character zero. -/
theorem decide_zero_le_renderDigit (d : Nat) (h : d < 10) :
    decide ('0' ≤ renderDigit d) = true := by
  interval_cases d <;> rfl

/-- A rendered digit of value at most five is at most the character five. -/
theorem decide_renderDigit_le_five (d : Nat) (h : d ≤ 5) :
    decide (renderDigit d ≤ '5') = true := by
  interval_cases d <;> rfl

/-- Skipping the optional colon over a non-colon character. -/
theorem skipColon_cons (c : Char) (cs : List Char) (h : ¬(c = ':')) :
    skipColon (c :: cs) = c :: cs := by
  simp [skipColon, h]

/-- Expecting a literal at that literal succeeds. -/
theorem expectChar_self (c : Char) (r : List Char) : expectChar c (c :: r) = some r := by
  simp [expectChar]

/-- The separator match at an upper-case T. -/
theorem expectSepT_T (r : List Char) : expectSepT ('T' :: r) = some r := rfl

/-- Round trip of `%Y` on a four-digit rendering. -/
theorem parseY_render (y : Nat) (h : y ≤ 9999) (rest : List Char) :
    parseY (render4 y ++ rest) = some (y, rest) := by
  have h1 : y / 1000 < 10 := by omega
  have h2 : y / 100 % 10 < 10 := by omega
  have h3 : y / 10 % 10 < 10 := by omega
  have h4 : y % 10 < 10 := by omega
  simp [render4, parseY, isDigitChar_renderDigit _ h1, isDigitChar_renderDigit _ h2,
    isDigitChar_renderDigit _ h3, isDigitChar_renderDigit _ h4,
    digitVal_renderDigit _ h1, digitVal_renderDigit _ h2, digitVal_renderDigit _ h3,
    digitVal_renderDigit _ h4]
  omega

/-- Round trip of `%m` on a two-digit rendering. -/
theorem parseMonth_render (mo : Nat) (h1 : 1 ≤ mo) (h2 : mo ≤ 12) (rest : List Char) :
    parseMonth (render2 mo ++ rest) = some (mo, rest) := by
  interval_cases mo <;> rfl

/-- Round trip of `%d` on a two-digit rendering. -/
theorem parseDay_render (d : Nat) (h1 : 1 ≤ d) (h2 : d ≤ 31) (rest : List Char) :
    parseDay (render2 d ++ rest) = some (d, rest) := by
  interval_cases d <;> rfl

/-- Round trip of `%H` on a two-digit rendering. -/
theorem parseHour_render (h : Nat) (hh : h ≤ 23) (rest : List Char) :
    parseHour (render2 h ++ rest) = some (h, rest) := by
  interval_cases h <;> rfl

/-- Round trip of `%M` on a two-digit rendering. -/
theorem parseMin_render (mi : Nat) (h : mi ≤ 59) (rest : List Char) :
    parseMin (render2 mi ++ rest) = some (mi, rest) := by
  interval_cases mi <;> rfl

/-- Round trip of `%S` on a two-digit rendering. -/
theorem parseSec_render (s : Nat) (h : s ≤ 59) (rest : List Char) :
    parseSec (render2 s ++ rest) = some (s, rest) := by
  interval_cases s <;> rfl

/-- The greedy digit run stops at the first non-digit. -/
theorem takeDigits_render (ds : List Nat) :
    ∀ (n : Nat) (rest : List Char), ds.length ≤ n → (∀ x ∈ ds, x < 10) →
      (∀ c cs', rest = c :: cs' → isDigitChar c = false) →
      takeDigits n (ds.map renderDigit ++ rest) = (ds, rest) := by
  induction ds with
  | nil =>
    intro n rest _ _ hrest
    cases n with
    | zero => rfl
    | succ m =>
      cases rest with
      | nil => rfl
      | cons c cs => simp [takeDigits, hrest c cs rfl]
  | cons d ds ih =>
    intro n rest hlen hv hrest
    cases n with
    | zero => simp at hlen
    | succ m =>
      simp only [List.map_cons, List.cons_append, takeDigits,
        isDigitChar_renderDigit d (hv d (by simp)), if_true, List.append_eq]
      rw [ih m rest (by simpa using hlen) (fun x hx => hv x (by simp [hx])) hrest]
      simp [digitVal_renderDigit d (hv d (by simp))]

/-- Round trip of `%f` on a rendering of one to six digits followed by a
non-digit. -/
theorem parseFrac_render (ds : List Nat) (hne : ds ≠ []) (hlen : ds.length ≤ 6)
    (hv : ∀ x ∈ ds, x < 10) (rest : List Char)
    (hrest : ∀ c cs', rest = c :: cs' → isDigitChar c = false) :
    parseFrac (ds.map renderDigit ++ rest) =
      some (digitsToNat ds * 10 ^ (6 - ds.length), rest) := by
  unfold parseFrac
  rw [takeDigits_render ds 6 rest hlen hv hrest]
  simp [hne]

/-- Round trip of `%z` on a rendered `±HHMM` offset ending the input. -/
theorem parseTZ_render (neg : Bool) (oh om : Nat) (hoh : oh ≤ 99) (hom : om ≤ 59) :
    parseTZ ((if neg then '-' else '+') :: (render2 oh ++ render2 om)) =
      some (.off neg oh om 0, []) := by
  have h1 : oh / 10 < 10 := by omega
  have h2 : oh % 10 < 10 := by omega
  have h3 : om / 10 < 10 := by omega
  have h3' : om / 10 ≤ 5 := by omega
  have h4 : om % 10 < 10 := by omega
  have hbody : parseOffBody (render2 oh ++ render2 om) = some ((oh, om, 0), []) := by
    simp only [render2, List.cons_append, List.nil_append, parseOffBody,
      isDigitChar_renderDigit _ h1, isDigitChar_renderDigit _ h2, Bool.and_self, if_true]
    rw [skipColon_cons _ _ (renderDigit_ne_colon _ h3)]
    simp only [decide_zero_le_renderDigit _ h3, decide_renderDigit_le_five _ h3',
      isDigitChar_renderDigit _ h4, Bool.and_self, if_true,
      digitVal_renderDigit _ h1, digitVal_renderDigit _ h2,
      digitVal_renderDigit _ h3, digitVal_renderDigit _ h4]
    have e1 : oh / 10 * 10 + oh % 10 = oh := by omega
    have e2 : om / 10 * 10 + om % 10 = om := by omega
    simp [parseOffSec, skipColon, e1, e2]
  cases neg <;> simp [parseTZ, hbody]

/-- Round trip of the whole timestamp regex on a rendered in-format
string. -/
theorem strptimeTSCore_render (y mo d h mi s : Nat) (ds : List Nat) (neg : Bool)
    (oh om : Nat) (hy : y ≤ 9999) (hmo1 : 1 ≤ mo) (hmo2 : mo ≤ 12)
    (hd1 : 1 ≤ d) (hd2 : d ≤ 31) (hh : h ≤ 23) (hmi : mi ≤ 59) (hs : s ≤ 59)
    (hne : ds ≠ []) (hlen : ds.length ≤ 6) (hv : ∀ x ∈ ds, x < 10)
    (hoh : oh ≤ 99) (hom : om ≤ 59) :
    strptimeTSCore (renderTS y mo d h mi s ds neg oh om) =
      some (⟨y, mo, d, h, mi, s, digitsToNat ds * 10 ^ (6 - ds.length)⟩,
        .off neg oh om 0) := by
  have hsign : ∀ c cs',
      ((if neg then '-' else '+') :: (render2 oh ++ render2 om)) = c :: cs' →
      isDigitChar c = false := by
    intro c cs' hc
    cases neg <;> (injection hc with hc1 _; subst hc1; rfl)
  have hfrac := parseFrac_render ds hne hlen hv _ hsign
  simp only [renderTS, strptimeTSCore, parseY_render y hy, Option.bind,
    expectChar_self, parseMonth_render mo hmo1 hmo2, parseDay_render d hd1 hd2,
    expectSepT_T, parseHour_render h hh, parseMin_render mi hmi,
    parseSec_render s hs, hfrac, parseTZ_render neg oh om hoh hom,
    List.isEmpty_nil, if_true]

/-- No month is longer than 31 days. -/
theorem daysInMonth_le_31 (y m : Nat) : daysInMonth y m ≤ 31 := by
  unfold daysInMonth
  split_ifs <;> norm_num

/-- A rendered timestamp is a non-empty string. -/
theorem renderTS_string_ne_empty (y mo d h mi s : Nat) (ds : List Nat) (neg : Bool)
    (oh om : Nat) : String.mk (renderTS y mo d h mi s ds neg oh om) ≠ "" := by
  intro hcontra
  have hdata : renderTS y mo d h mi s ds neg oh om = [] :=
    congrArg String.data hcontra
  simp [renderTS, render4] at hdata

/-! ### C7 -/

/-- C7 counterexample: the string `2025-02-30T11:56:17.563+0700` is
exactly of the claimed fixed-width shape (it is the rendering of its
components), yet `dt_obj` raises a parse error instead of returning a
naive timestamp, because the day is out of range for the month; and the
string `2025-5-27T1:2:3.4+0000`, which is not of that fixed-width shape,
is parsed successfully instead of raising. -/
theorem C7_format_shape_not_exact :
    renderTS 2025 2 30 11 56 17 [5, 6, 3] false 7 0 =
      "2025-02-30T11:56:17.563+0700".data ∧
    dt_obj (.str "2025-02-30T11:56:17.563+0700") =
      .error (.valueError "invalid time value: 2025-02-30T11:56:17.563+0700") ∧
    dt_obj (.str "2025-5-27T1:2:3.4+0000") =
      .ok (some ⟨2025, 5, 27, 1, 2, 3, 400000⟩) := by
  exact ⟨rfl, rfl, rfl⟩

/-- C7 (amended): for every timestamp string of the fixed-width shape
`YYYY-MM-DDTHH:MM:SS.f±HHMM` (one to six fraction digits) denoting a
valid calendar date, in-range time components and an offset below 24
hours, `dt_obj` returns the naive local timestamp with the timezone
offset parsed and then discarded — the result does not depend on the
offset — in particular `2025-05-27T11:56:17.563+0700` yields
`2025-05-27 11:56:17.563000`; a string the parser rejects raises the
parse error unswallowed (it propagates out of normalization); the parser
is laxer than the fixed-width shape on non-zero-padded fields and
stricter on invalid dates. -/
theorem C7_dt_obj_naive_round_trip :
    (∀ (y mo d h mi s : Nat) (ds : List Nat) (neg : Bool) (oh om : Nat),
        1 ≤ y → y ≤ 9999 → 1 ≤ mo → mo ≤ 12 → 1 ≤ d → d ≤ daysInMonth y mo →
        h ≤ 23 → mi ≤ 59 → s ≤ 59 → ds ≠ [] → ds.length ≤ 6 → (∀ x ∈ ds, x < 10) →
        oh ≤ 23 → om ≤ 59 →
        dt_obj (.str (String.mk (renderTS y mo d h mi s ds neg oh om))) =
          .ok (some ⟨y, mo, d, h, mi, s, digitsToNat ds * 10 ^ (6 - ds.length)⟩))
    ∧ dt_obj (.str "2025-05-27T11:56:17.563+0700") =
        .ok (some ⟨2025, 5, 27, 11, 56, 17, 563000⟩)
    ∧ (∀ (s' : String) (e : PyErr), s' ≠ "" → strptimeNaive s' = .error e →
        dt_obj (.str s') = .error e)
    ∧ flatten_issue [("fields", .dict [("created", .str "2025-05-27")])] =
        .error (.valueError "time data does not match format: 2025-05-27") := by
  refine ⟨?_, rfl, ?_, rfl⟩
  · intro y mo d h mi s ds neg oh om hy1 hy hmo1 hmo2 hd1 hdm hh hmi hs hne hlen hv hoh hom
    have hd2 : d ≤ 31 := le_trans hdm (daysInMonth_le_31 y mo)
    have hmatch : strptimeNaive (String.mk (renderTS y mo d h mi s ds neg oh om)) =
        .ok ⟨y, mo, d, h, mi, s, digitsToNat ds * 10 ^ (6 - ds.length)⟩ := by
      unfold strptimeNaive strptimeTSMatch
      rw [show (String.mk (renderTS y mo d h mi s ds neg oh om)).data =
        renderTS y mo d h mi s ds neg oh om from rfl]
      rw [strptimeTSCore_render y mo d h mi s ds neg oh om hy hmo1 hmo2 hd1 hd2 hh hmi hs
        hne hlen hv (le_trans hoh (by norm_num)) hom]
      have hvalid : dtValid ⟨y, mo, d, h, mi, s, digitsToNat ds * 10 ^ (6 - ds.length)⟩
          = true := by
        simp [dtValid, hy1, hdm, hs]
      have htz : tzValid (.off neg oh om 0) = true := by
        simp only [tzValid, decide_eq_true_eq]
        omega
      simp [hvalid, htz]
    simp [dt_obj, truthy, renderTS_string_ne_empty y mo d h mi s ds neg oh om, hmatch,
      Except.map]
  · intro s' e hs' herr
    simp [dt_obj, truthy, hs', herr, Except.map]

/-- Witness for the amended C7: a concrete rendering parses to the naive
components with the offset discarded, and a rejected bare date raises
through `dt_obj`. -/
theorem C7_dt_obj_naive_round_trip_witness :
    dt_obj (.str (String.mk (renderTS 2025 5 27 11 56 17 [5, 6, 3] false 7 0))) =
      .ok (some ⟨2025, 5, 27, 11, 56, 17, 563000⟩) ∧
    dt_obj (.str "2025-05-27") =
      .error (.valueError "time data does not match format: 2025-05-27") := by
  constructor
  · exact C7_dt_obj_naive_round_trip.1 2025 5 27 11 56 17 [5, 6, 3] false 7 0
      (by norm_num) (by norm_num) (by norm_num) (by norm_num) (by norm_num) (by decide)
      (by norm_num) (by norm_num) (by norm_num) (by decide) (by decide) (by decide)
      (by norm_num) (by norm_num)
  · exact C7_dt_obj_naive_round_trip.2.2.1 "2025-05-27"
      (.valueError "time data does not match format: 2025-05-27") (by decide) rfl

/-! ### Lemmas about the sort -/

/-- Mapping positional access over the index range reproduces the list. -/
theorem map_getD_range (l : List β) (dflt : β) :
    (List.range l.length).map (fun i => l.getD i dflt) = l := by
  induction l with
  | nil => rfl
  | cons a as ih =>
    rw [List.length_cons, List.range_succ_eq_map]
    simp only [List.map_cons, List.map_map, Function.comp_def, List.getD_cons_zero,
      List.getD_cons_succ]
    rw [ih]

/-- The tie-reversing kernel satisfies numpy's argsort contract. -/
theorem badArgsort_spec : ArgsortSpec badArgsort := by
  intro ks
  constructor
  · exact List.perm_insertionSort _ (List.range ks.length)
  · haveI ht : IsTotal Nat
        (fun i j => ks.getD i 0 < ks.getD j 0 ∨ (ks.getD i 0 = ks.getD j 0 ∧ j ≤ i)) := by
      constructor
      intro a b
      rcases Nat.lt_trichotomy (ks.getD a 0) (ks.getD b 0) with h | h | h
      · exact Or.inl (Or.inl h)
      · rcases Nat.le_total b a with hba | hab
        · exact Or.inl (Or.inr ⟨h, hba⟩)
        · exact Or.inr (Or.inr ⟨h.symm, hab⟩)
      · exact Or.inr (Or.inl h)
    haveI htr : IsTrans Nat
        (fun i j => ks.getD i 0 < ks.getD j 0 ∨ (ks.getD i 0 = ks.getD j 0 ∧ j ≤ i)) := by
      constructor
      intro a b c hab hbc
      rcases hab with h1 | ⟨h1, h1'⟩ <;> rcases hbc with h2 | ⟨h2, h2'⟩
      · exact Or.inl (h1.trans h2)
      · exact Or.inl (h2 ▸ h1)
      · exact Or.inl (h1 ▸ h2)
      · exact Or.inr ⟨h1.trans h2, h2'.trans h1'⟩
    have hs := List.sorted_insertionSort
      (fun i j => ks.getD i 0 < ks.getD j 0 ∨ (ks.getD i 0 = ks.getD j 0 ∧ j ≤ i))
      (List.range ks.length)
    exact hs.map (fun i => ks.getD i 0) (fun a b hab => by
      rcases hab with h | ⟨h, _⟩
      · exact le_of_lt h
      · exact le_of_eq h)

/-- The indexer is a permutation of the (reversed) non-NaT positions. -/
theorem indexer_perm (argsort : List Nat → List Nat) (hspec : ArgsortSpec argsort)
    (keys : List (Option Nat)) :
    (indexer argsort keys).Perm (nonNanIdx keys) := by
  have hperm := (hspec (revVals keys)).1
  have hlen : (revVals keys).length = (revIdx keys).length := List.length_map _ _
  have h1 : (indexer argsort keys).Perm
      ((List.range (revIdx keys).length).map (fun j => (revIdx keys).getD j 0)) := by
    unfold indexer
    exact (hlen ▸ hperm).map _
  rw [map_getD_range] at h1
  exact h1.trans (List.reverse_perm (nonNanIdx keys))

/-- The pandas indexer with any contract-conforming kernel yields a
permutation of all positions. -/
theorem nargsortDesc_perm (argsort : List Nat → List Nat) (hspec : ArgsortSpec argsort)
    (keys : List (Option Nat)) :
    (nargsortDesc argsort keys).Perm (List.range keys.length) := by
  unfold nargsortDesc
  have h1 : ((indexer argsort keys).reverse).Perm (nonNanIdx keys) :=
    ((indexer argsort keys).reverse_perm).trans (indexer_perm argsort hspec keys)
  exact (h1.append_right (nanIdx keys)).trans
    (List.filter_append_perm (fun i => (keys.getD i none).isSome) (List.range keys.length))

/-- Every indexer entry is a non-NaT position. -/
theorem indexer_mem (argsort : List Nat → List Nat) (hspec : ArgsortSpec argsort)
    (keys : List (Option Nat)) :
    ∀ i ∈ indexer argsort keys, i ∈ nonNanIdx keys := by
  intro i hi
  exact (indexer_perm argsort hspec keys).mem_iff.mp hi

/-- The rank of a present key is its value plus one. -/
theorem keyRank_of_isSome (o : Option Nat) (h : o.isSome = true) :
    keyRank o = o.getD 0 + 1 := by
  cases o with
  | none => simp at h
  | some v => rfl

/-- The keys along the indexer, in order, are the kernel's sorted
values (shifted by the rank offset). -/
theorem indexer_map_rank (argsort : List Nat → List Nat) (hspec : ArgsortSpec argsort)
    (keys : List (Option Nat)) :
    (indexer argsort keys).map (fun i => keyRank (keys.getD i none)) =
      ((argsort (revVals keys)).map (fun j => (revVals keys).getD j 0)).map
        (fun v => v + 1) := by
  unfold indexer
  rw [List.map_map, List.map_map]
  apply List.map_congr_left
  intro j hj
  have hjlt : j < (revVals keys).length := by
    have := (hspec (revVals keys)).1.mem_iff.mp hj
    simpa [List.mem_range] using this
  have hjlt' : j < (revIdx keys).length := by
    simpa [revVals] using hjlt
  have hmem : (revIdx keys).getD j 0 ∈ nonNanIdx keys := by
    have h0 : (revIdx keys).getD j 0 ∈ revIdx keys := by
      rw [List.getD_eq_getElem _ _ hjlt']
      exact List.getElem_mem _
    unfold revIdx at h0
    exact List.mem_reverse.mp h0
  have hsome : (keys.getD ((revIdx keys).getD j 0) none).isSome = true := by
    unfold nonNanIdx at hmem
    exact (List.mem_filter.mp hmem).2
  have hval : (revVals keys).getD j 0 =
      (keys.getD ((revIdx keys).getD j 0) none).getD 0 := by
    rw [List.getD_eq_getElem _ _ hjlt, List.getD_eq_getElem _ _ hjlt']
    simp [revVals]
  simp only [Function.comp_apply]
  rw [keyRank_of_isSome _ hsome, hval]

/-- The pandas indexer output is sorted descending in rank, NaT ranks
last. -/
theorem nargsortDesc_sorted (argsort : List Nat → List Nat) (hspec : ArgsortSpec argsort)
    (keys : List (Option Nat)) :
    ((nargsortDesc argsort keys).map (fun i => keyRank (keys.getD i none))).Sorted
      (fun a b => b ≤ a) := by
  have hnan : ∀ i ∈ nanIdx keys, keyRank (keys.getD i none) = 0 := by
    intro i hi
    unfold nanIdx at hi
    have hfalse := (List.mem_filter.mp hi).2
    cases ho : keys.getD i none with
    | none => rfl
    | some v => rw [ho] at hfalse; simp at hfalse
  unfold nargsortDesc
  rw [List.map_append]
  refine List.pairwise_append.mpr ⟨?_, ?_, ?_⟩
  · rw [List.map_reverse, List.pairwise_reverse]
    have hsorted := (hspec (revVals keys)).2
    have hmono : (((argsort (revVals keys)).map (fun j => (revVals keys).getD j 0)).map
        (fun v => v + 1)).Sorted (· ≤ ·) :=
      hsorted.map _ (fun a b hab => Nat.succ_le_succ hab)
    rw [indexer_map_rank argsort hspec keys]
    exact hmono.imp (fun {a b} hab => hab)
  · rw [List.pairwise_map]
    apply List.pairwise_of_forall_mem_list
    intro a ha b hb
    rw [hnan b hb]
    exact Nat.zero_le _
  · intro a ha b hb
    rcases List.mem_map.mp hb with ⟨i, hi, rfl⟩
    rw [hnan i hi]
    exact Nat.zero_le _

/-- The sort of `main` permutes the rows, for every conforming kernel. -/
theorem sort_values_created_perm (argsort : List Nat → List Nat)
    (hspec : ArgsortSpec argsort) (rows : List Row) :
    (sort_values_created argsort rows).Perm rows := by
  unfold sort_values_created
  by_cases h : rows.isEmpty
  · rw [if_pos h]
  · rw [if_neg h]
    have hp := nargsortDesc_perm argsort hspec (rows.map created_key)
    have hmr : (List.range rows.length).map (rowAt rows) = rows :=
      map_getD_range rows _
    have hlen : (rows.map created_key).length = rows.length := List.length_map _ _
    have step1 : ((nargsortDesc argsort (rows.map created_key)).map (rowAt rows)).Perm
        ((List.range rows.length).map (rowAt rows)) := (hlen ▸ hp).map (rowAt rows)
    rw [hmr] at step1
    exact step1

/-- The sort of `main` orders ranks descending with NaT last, for every
conforming kernel. -/
theorem sort_values_created_sorted (argsort : List Nat → List Nat)
    (hspec : ArgsortSpec argsort) (rows : List Row) :
    ((sort_values_created argsort rows).map (fun r => keyRank (created_key r))).Sorted
      (fun a b => b ≤ a) := by
  unfold sort_values_created
  by_cases h : rows.isEmpty
  · rw [if_pos h]
    have hnil : rows = [] := List.isEmpty_iff.mp h
    subst hnil
    simp
  · rw [if_neg h]
    have hs := nargsortDesc_sorted argsort hspec (rows.map created_key)
    rw [List.map_map]
    have hcong : ∀ i ∈ nargsortDesc argsort (rows.map created_key),
        ((fun r => keyRank (created_key r)) ∘ rowAt rows) i =
          (fun i => keyRank ((rows.map created_key).getD i none)) i := by
      intro i hi
      have hilt : i < rows.length := by
        have := (nargsortDesc_perm argsort hspec (rows.map created_key)).mem_iff.mp hi
        simpa [List.mem_range, List.length_map] using this
      have hilt' : i < (rows.map created_key).length := by
        simpa [List.length_map] using hilt
      simp only [Function.comp_apply, rowAt]
      rw [List.getD_eq_getElem _ _ hilt, List.getD_eq_getElem _ _ hilt']
      simp
    rw [List.map_congr_left hcong]
    exact hs

/-- A permutation of the pair `[0, 1]` is that pair or its swap. -/
theorem perm_pair_01 (l : List Nat) (h : l.Perm [0, 1]) :
    l = [0, 1] ∨ l = [1, 0] := by
  have hlen : l.length = 2 := by simpa using h.length_eq
  match l, hlen with
  | [a, b], _ =>
    have ha : a = 0 ∨ a = 1 := by
      have := h.mem_iff.mp (show a ∈ [a, b] by simp)
      simpa using this
    have hb : b = 0 ∨ b = 1 := by
      have := h.mem_iff.mp (show b ∈ [a, b] by simp)
      simpa using this
    have hnd : ([a, b] : List Nat).Nodup := h.nodup_iff.mpr (by decide)
    have hab : a ≠ b := by simpa [List.nodup_cons] using hnd
    rcases ha with rfl | rfl <;> rcases hb with rfl | rfl
    · exact absurd rfl hab
    · exact Or.inl rfl
    · exact Or.inr rfl
    · exact absurd rfl hab

/-- On three rows with strictly increasing non-null, non-null, null
`created` keys, every conforming kernel yields the descending-with-null-
last order. -/
theorem sort_values_created_three (argsort : List Nat → List Nat)
    (hspec : ArgsortSpec argsort) (r1 r2 r3 : Row) (t1 t2 : NaiveDT)
    (h1 : r1.created = some t1) (h2 : r2.created = some t2) (h3 : r3.created = none)
    (hlt : dtKey t1 < dtKey t2) :
    sort_values_created argsort [r1, r2, r3] = [r2, r1, r3] := by
  have hkeys : ([r1, r2, r3].map created_key) =
      [some (dtKey t1), some (dtKey t2), none] := by
    simp [created_key, h1, h2, h3]
  have hrv : revVals [some (dtKey t1), some (dtKey t2), none] = [dtKey t2, dtKey t1] := rfl
  obtain ⟨hperm, hsort⟩ := hspec [dtKey t2, dtKey t1]
  have hargs : argsort [dtKey t2, dtKey t1] = [1, 0] := by
    rcases perm_pair_01 _ (by simpa using hperm) with he | he
    · exfalso
      rw [he] at hsort
      simp [List.sorted_cons] at hsort
      omega
    · exact he
  unfold sort_values_created
  rw [if_neg (by simp)]
  rw [hkeys]
  unfold nargsortDesc indexer
  rw [hrv, hargs]
  rfl

/-! ### C8 -/

/-- C8 counterexample: numpy's `kind="quicksort"` contract does not fix
the tie order, and a conforming kernel exists under which two rows with
equal `created` timestamps come out in the opposite of their input
order, differing from the stable descending sort the claim asserts. -/
theorem C8_unstable_tie_order_possible :
    ArgsortSpec badArgsort ∧
    sort_values_created badArgsort [c8rowA, c8rowB] = [c8rowB, c8rowA] ∧
    stable_sort_desc [c8rowA, c8rowB] = [c8rowA, c8rowB] ∧
    c8rowA ≠ c8rowB := by
  refine ⟨badArgsort_spec, rfl, rfl, ?_⟩
  intro hcontra
  have hk : c8rowA.key = c8rowB.key := congrArg Row.key hcontra
  simp [c8rowA, c8rowB, mkRowKC] at hk

/-- C8 (amended): for every argsort kernel satisfying numpy's
documented contract, the table builder returns a permutation of the rows
whose `created` ranks are non-increasing with null ranks below all
non-null ranks — descending with nulls last, but with no guarantee on
the relative order of equal keys (the pandas default `kind="quicksort"`
is not documented stable) — and in particular three rows with created
timestamps T1 < T2 < null come out in the order [T2, T1, null-row]. -/
theorem C8_sort_created_descending_nulls_last :
    (∀ argsort : List Nat → List Nat, ArgsortSpec argsort →
      ∀ rows : List Row,
        (sort_values_created argsort rows).Perm rows ∧
        ((sort_values_created argsort rows).map (fun r => keyRank (created_key r))).Sorted
          (fun a b => b ≤ a))
    ∧ (∀ argsort : List Nat → List Nat, ArgsortSpec argsort →
        ∀ (r1 r2 r3 : Row) (t1 t2 : NaiveDT),
          r1.created = some t1 → r2.created = some t2 → r3.created = none →
          dtKey t1 < dtKey t2 →
          sort_values_created argsort [r1, r2, r3] = [r2, r1, r3]) :=
  ⟨fun a ha rows =>
      ⟨sort_values_created_perm a ha rows, sort_values_created_sorted a ha rows⟩,
    fun a ha r1 r2 r3 t1 t2 h1 h2 h3 hlt =>
      sort_values_created_three a ha r1 r2 r3 t1 t2 h1 h2 h3 hlt⟩

/-- Witness for the amended C8: the three-row example under a concrete
conforming kernel. -/
theorem C8_sort_created_descending_nulls_last_witness :
    sort_values_created badArgsort [c8rowT1, c8rowT2, c8rowNull] =
      [c8rowT2, c8rowT1, c8rowNull] :=
  C8_sort_created_descending_nulls_last.2 badArgsort badArgsort_spec
    c8rowT1 c8rowT2 c8rowNull c8early c8late rfl rfl rfl (by decide)

end JiraExport
